import Mathlib

/-! # Workload status and container images of `flux/cluster/kubernetes`

A shallow embedding of three Go files,

* `cluster/kubernetes/resourcekinds.go` (package `kubernetes`),
* `cluster/kubernetes/resource/fluxhelmrelease.go` (package `resource`, imported as
  `k8sresource`),
* `cluster/kubernetes/resource/spec.go` (same package),

followed by theorems about them.

Conventions of the embedding.

* A Go slice is a `List`; the nil slice and the empty slice are both `[]` (`len`, `range` and
  `append` do not tell them apart).
* A Go map is the list of its entries, in the order in which a `range` over it visits them.
  `m[k]` is `List.lookup k m`. Go leaves the order of `range` unspecified.
* `int32` and `int64` are `Int`: the code compares and prints them and does no arithmetic.
* A pointer field (`*int32`, `*int64`) is an `Option`; dereferencing `none` is the run-time
  panic of Go, and the function then yields `none`.
* A Go function returning `(T, error)` and a zero `T` beside every error is an `Except`.
* Package `image` of the repository is not among the three files. Its parser `ParseRef` and
  the text of its error value `ErrMalformedImageID` are parameters (`Prims`).
-/

set_option autoImplicit false

namespace Flux

/-! ## Package `image` (types as used by the three files) -/

namespace image

/-- Go `image.Name`: registry domain and repository path. -/
structure Name where
  Domain : String
  Image : String
deriving DecidableEq, Repr

/-- Go `image.Ref`: a name and a tag. -/
structure Ref where
  Name : Name
  Tag : String
deriving DecidableEq, Repr

/-- The zero value `image.Ref{}`. -/
def Ref.zero : Ref := ⟨⟨"", ""⟩, ""⟩

/-- Go `error` values that reach this code: the package-level value
`image.ErrMalformedImageID`, or any other error value, known by the text of its `Error()`. -/
inductive Error where
  | ErrMalformedImageID
  | other (text : String)
deriving DecidableEq, Repr

end image

/-! ## The chart values tree -/

/-- The dynamic types a value of `map[string]interface{}` is switched on in
`fluxhelmrelease.go`: `string`, `map[string]string`, `map[string]interface{}`, and every other
type (numbers, booleans, lists, nil), told apart by `id`. -/
inductive Value where
  | str (s : String)
  | strMap (m : List (String × String))
  | anyMap (m : List (String × Value))
  | other (id : Nat)

/-- Go `chartutil.Values`, a `map[string]interface{}`. -/
abbrev Values := List (String × Value)

/-- What the three files use of code outside them. `ParseRef` is `image.ParseRef` with its Go
result pair (the reference, and the error or nil); `malformedText` is
`image.ErrMalformedImageID.Error()`; `verbS` is what the verb `%s` of `fmt.Sprintf` prints for
an operand that is not a string. -/
structure Prims where
  ParseRef : String → image.Ref × Option image.Error
  malformedText : String
  verbS : Value → String

/-- Go `err.Error()`. -/
def image.Error.ErrorText (P : Prims) : image.Error → String
  | .ErrMalformedImageID => P.malformedText
  | .other text => text

/-- The verb `%s` of `fmt.Sprintf` on an `interface{}` operand: a string prints as itself. -/
def sprintS (P : Prims) : Value → String
  | .str s => s
  | v => P.verbS v

/-- The verb `%d` of `fmt.Sprintf` on a signed integer: decimal digits, `-` before a negative
number. -/
def sprintD : Int → String
  | .ofNat n => Nat.repr n
  | .negSucc n => "-" ++ Nat.repr (n + 1)

/-! ## Package `resource` of flux: containers -/

namespace resource

/-- Go `resource.Container`. -/
structure Container where
  Name : String
  Image : image.Ref
deriving DecidableEq, Repr

end resource

/-! ## `cluster/kubernetes/resource/spec.go` -/

namespace k8sresource

/-- Go `ContainerSpec` (the fields `Containers` reads). -/
structure ContainerSpec where
  Name : String
  Image : String
deriving DecidableEq, Repr

/-- Go `PodSpec` (the field `Containers` reads). -/
structure PodSpec where
  Containers : List ContainerSpec
deriving DecidableEq, Repr

/-- Go `PodTemplate`. -/
structure PodTemplate where
  Spec : PodSpec
deriving DecidableEq, Repr

/-- Go `PodTemplate.Containers`: every container of the template, with the reference
`ParseRef` returned for its image string; the error is dropped (`im, _ :=`). -/
def PodTemplate.Containers (P : Prims) (t : PodTemplate) : List resource.Container :=
  t.Spec.Containers.foldl
    (fun result c => result ++ [{ Name := c.Name, Image := (P.ParseRef c.Image).1 }]) []

/-! ## `cluster/kubernetes/resource/fluxhelmrelease.go` -/

/-- Go `ifv1.FluxHelmReleaseSpec` (the fields read here). -/
structure FluxHelmReleaseSpec where
  ChartGitPath : String
  Values : Values

/-- The `Meta` field of `baseObject`. -/
structure ObjectMetaName where
  Namespace : String
  Name : String
deriving DecidableEq, Repr

/-- Go `FluxHelmRelease` of package `resource`: the embedded `baseObject` (its `Meta`) and the
`Spec`. -/
structure FluxHelmRelease where
  Meta : ObjectMetaName
  Spec : FluxHelmReleaseSpec

/-- The three lines `ref, err := image.ParseRef(i)`, `if err != nil { return image.Ref{},
err }`, `return ref, nil` that `processImageString` and `processImageMap` end with: the
parser's reference, or the parser's error beside the zero reference. -/
def parseOrErr (P : Prims) (i : String) : Except image.Error image.Ref :=
  match P.ParseRef i with
  | (_, some err) => .error err
  | (ref, none) => .ok ref

/-- Go `processImageString`. -/
def processImageString (P : Prims) (values : Values) (val : String) :
    Except image.Error image.Ref :=
  let val :=
    match values.lookup "imageTag" with
    | some t => val ++ ":" ++ sprintS P t
    | none =>
      match values.lookup "tag" with
      | some t => val ++ ":" ++ sprintS P t
      | none => val
  parseOrErr P val

/-- Go `processImageMap`. `d, dOk := val["registry"]` gives the empty string and `false` for
a key that is absent. -/
def processImageMap (P : Prims) (val : List (String × String)) :
    Except image.Error image.Ref :=
  match val.lookup "repository" with
  | none => .error .ErrMalformedImageID
  | some i =>
    let d := (val.lookup "registry").getD ""
    let dOk := (val.lookup "registry").isSome
    let t := (val.lookup "tag").getD ""
    let tOk := (val.lookup "tag").isSome
    if !dOk then
      parseOrErr P (if tOk then i ++ ":" ++ t else i)
    else if !tOk then
      parseOrErr P (if dOk then d ++ "/" ++ i else i)
    else
      .ok { Name := { Domain := d, Image := i }, Tag := t }

/-- Go `processImageInfo`. -/
def processImageInfo (P : Prims) (values : Values) (value : Value) :
    Except image.Error image.Ref :=
  match value with
  | .str val => processImageString P values val
  | .strMap val => processImageMap P val
  | _ => .error .ErrMalformedImageID

/-- Go `processImageData`. -/
def processImageData (P : Prims) (value : Values) : Except image.Error image.Ref :=
  match value.lookup "image" with
  | none => .ok image.Ref.zero
  | some (.str val) => processImageString P value val
  | some (.strMap val) => processImageMap P val
  | some _ => .ok image.Ref.zero

/-- Go `FluxHelmRelease.findImage`. -/
def FluxHelmRelease.findImage (P : Prims) (fhr : FluxHelmRelease) (_param : String)
    (value : Value) : Except image.Error (String × image.Ref) :=
  let fhrName := fhr.Meta.Name
  match value with
  | .str _ => .ok ("", image.Ref.zero)
  | .anyMap val =>
    let cName :=
      match val.lookup "name" with
      | some (.str cns) => cns
      | _ => fhrName
    match processImageData P val with
    | .error err => .error err
    | .ok refP => .ok (cName, refP)
  | _ => .ok ("", image.Ref.zero)

/-- The `for param, value := range values` loop of Go `CreateContainers` and the `return`
after it: `rest` is what is left to visit, `containers` the slice appended to so far. -/
def CreateContainers.loop (P : Prims) (fhr : FluxHelmRelease) :
    Values → List resource.Container → Except image.Error (List resource.Container)
  | [], _containers => .ok []
  | (param, value) :: rest, containers =>
    match fhr.findImage P param value with
    | .error err => .error err
    | .ok (cName, imageRef) =>
      if cName ≠ "" then
        CreateContainers.loop P fhr rest (containers ++ [{ Name := cName, Image := imageRef }])
      else
        CreateContainers.loop P fhr rest containers

/-- Go `CreateContainers`. -/
def CreateContainers (P : Prims) (fhr : FluxHelmRelease) :
    Except image.Error (List resource.Container) :=
  let containers : List resource.Container := []
  let values := fhr.Spec.Values
  if values.length = 0 then .ok containers
  else
    match values.lookup "image" with
    | some imgInfo =>
      match processImageInfo P values imgInfo with
      | .error err => .error err
      | .ok imageRef => .ok (containers ++ [{ Name := fhr.Spec.ChartGitPath, Image := imageRef }])
    | none => CreateContainers.loop P fhr values containers

/-- Go `FluxHelmRelease.Containers`: the error of `CreateContainers` is dropped, and the
slice beside an error is nil. -/
def FluxHelmRelease.Containers (P : Prims) (fhr : FluxHelmRelease) : List resource.Container :=
  match CreateContainers P fhr with
  | .error _ => []
  | .ok containers => containers

end k8sresource

/-! ## Kubernetes API objects (the fields `resourcekinds.go` reads) -/

namespace meta_v1

/-- Go `meta_v1.ObjectMeta`. -/
structure ObjectMeta where
  Name : String
  Namespace : String
  Generation : Int
deriving DecidableEq, Repr

end meta_v1

namespace apiv1

/-- Go `apiv1.Container`. -/
structure Container where
  Name : String
  Image : String
deriving DecidableEq, Repr

/-- Go `apiv1.PodSpec`. -/
structure PodSpec where
  Containers : List Container
deriving DecidableEq, Repr

/-- Go `apiv1.PodTemplateSpec`. -/
structure PodTemplateSpec where
  ObjectMeta : meta_v1.ObjectMeta
  Spec : PodSpec
deriving DecidableEq, Repr

/-- The zero value `apiv1.PodTemplateSpec{}`. -/
def PodTemplateSpec.zero : PodTemplateSpec := ⟨⟨"", "", 0⟩, ⟨[]⟩⟩

end apiv1

namespace apiext

/-- Go `apiext.DeploymentSpec`; `Replicas` is a `*int32`. -/
structure DeploymentSpec where
  Replicas : Option Int
  Template : apiv1.PodTemplateSpec

/-- Go `apiext.DeploymentStatus`. -/
structure DeploymentStatus where
  ObservedGeneration : Int
  UpdatedReplicas : Int

/-- Go `apiext.Deployment`. -/
structure Deployment where
  ObjectMeta : meta_v1.ObjectMeta
  Spec : DeploymentSpec
  Status : DeploymentStatus

/-- Go `apiext.DaemonSetSpec`. -/
structure DaemonSetSpec where
  Template : apiv1.PodTemplateSpec

/-- Go `apiext.DaemonSetStatus`. -/
structure DaemonSetStatus where
  ObservedGeneration : Int
  UpdatedNumberScheduled : Int
  DesiredNumberScheduled : Int

/-- Go `apiext.DaemonSet`. -/
structure DaemonSet where
  ObjectMeta : meta_v1.ObjectMeta
  Spec : DaemonSetSpec
  Status : DaemonSetStatus

end apiext

namespace apiapps

/-- Go `apiapps.StatefulSetSpec`; `Replicas` is a `*int32`. -/
structure StatefulSetSpec where
  Replicas : Option Int
  Template : apiv1.PodTemplateSpec

/-- Go `apiapps.StatefulSetStatus`; `ObservedGeneration` is a `*int64`. -/
structure StatefulSetStatus where
  ObservedGeneration : Option Int
  UpdatedReplicas : Int

/-- Go `apiapps.StatefulSet`. -/
structure StatefulSet where
  ObjectMeta : meta_v1.ObjectMeta
  Spec : StatefulSetSpec
  Status : StatefulSetStatus

end apiapps

namespace apibatch

/-- Go `apibatch.CronJob`, with `Spec.JobTemplate.Spec.Template` as `Template`. -/
structure CronJob where
  ObjectMeta : meta_v1.ObjectMeta
  Template : apiv1.PodTemplateSpec

end apibatch

namespace ifv1

/-- Go `ifv1.FluxHelmRelease`. -/
structure FluxHelmRelease where
  ObjectMeta : meta_v1.ObjectMeta
  Spec : k8sresource.FluxHelmReleaseSpec

end ifv1

/-! ## Package `cluster` -/

namespace cluster

/-- Go `cluster.ContainersOrExcuse`. -/
structure ContainersOrExcuse where
  Excuse : String
  Containers : List resource.Container
deriving DecidableEq, Repr

/-- Go `cluster.Controller`; the resource ID is a string here. -/
structure Controller where
  ID : String
  Status : String
  Containers : ContainersOrExcuse
deriving DecidableEq, Repr

end cluster

/-! ## `cluster/kubernetes/resourcekinds.go` -/

namespace kubernetes

/-- Modelled from the spec: the constant `StatusReady` of package `kubernetes`, declared
outside the three files; the spec names the status `Ready`. -/
def StatusReady : String := "Ready"

/-- Modelled from the spec: the constant `StatusUpdating` of package `kubernetes`, declared
outside the three files; the spec names the status `Updating`. -/
def StatusUpdating : String := "Updating"

/-- The dynamic types stored in `podController.apiObject`. -/
inductive ApiObject where
  | deployment (d : apiext.Deployment)
  | daemonSet (d : apiext.DaemonSet)
  | statefulSet (s : apiapps.StatefulSet)
  | cronJob (c : apibatch.CronJob)
  | fluxHelmRelease (f : ifv1.FluxHelmRelease)

/-- Go `podController`. -/
structure podController where
  apiVersion : String
  kind : String
  name : String
  status : String
  podTemplate : apiv1.PodTemplateSpec
  apiObject : ApiObject

/-- The `for _, container := range pc.podTemplate.Spec.Containers` loop of Go
`toClusterController`: the state is the pair `(clusterContainers, excuse)`, and a parse error
leaves the loop (`break`) with `clusterContainers = nil` and the error text. -/
def toClusterController.loop (P : Prims) :
    List apiv1.Container → List resource.Container → List resource.Container × String
  | [], clusterContainers => (clusterContainers, "")
  | container :: rest, clusterContainers =>
    match P.ParseRef container.Image with
    | (_, some err) => ([], err.ErrorText P)
    | (ref, none) =>
      toClusterController.loop P rest
        (clusterContainers ++ [{ Name := container.Name, Image := ref }])

/-- Go `podController.toClusterController`. -/
def podController.toClusterController (P : Prims) (pc : podController) (resourceID : String) :
    cluster.Controller :=
  let r := toClusterController.loop P pc.podTemplate.Spec.Containers []
  { ID := resourceID
    Status := pc.status
    Containers := { Containers := r.1, Excuse := r.2 } }

/-- Go `makeDeploymentPodController`; `none` is the panic of `*deployment.Spec.Replicas` on a
nil pointer. -/
def makeDeploymentPodController (deployment : apiext.Deployment) : Option podController :=
  let objectMeta := deployment.ObjectMeta
  let deploymentStatus := deployment.Status
  let status : Option String :=
    if deploymentStatus.ObservedGeneration ≥ objectMeta.Generation then
      match deployment.Spec.Replicas with
      | none => none
      | some wanted =>
        let updated := deploymentStatus.UpdatedReplicas
        if updated = wanted then some StatusReady
        else some (sprintD updated ++ " out of " ++ sprintD wanted ++ " updated")
    else some StatusUpdating
  status.map fun status =>
    { apiVersion := "extensions/v1beta1"
      kind := "Deployment"
      name := deployment.ObjectMeta.Name
      status := status
      podTemplate := deployment.Spec.Template
      apiObject := .deployment deployment }

/-- Go `makeDaemonSetPodController`. -/
def makeDaemonSetPodController (daemonSet : apiext.DaemonSet) : podController :=
  let objectMeta := daemonSet.ObjectMeta
  let daemonSetStatus := daemonSet.Status
  let status : String :=
    if daemonSetStatus.ObservedGeneration ≥ objectMeta.Generation then
      let updated := daemonSetStatus.UpdatedNumberScheduled
      let wanted := daemonSetStatus.DesiredNumberScheduled
      if updated = wanted then StatusReady
      else sprintD updated ++ " out of " ++ sprintD wanted ++ " updated"
    else StatusUpdating
  { apiVersion := "extensions/v1beta1"
    kind := "DaemonSet"
    name := daemonSet.ObjectMeta.Name
    status := status
    podTemplate := daemonSet.Spec.Template
    apiObject := .daemonSet daemonSet }

/-- Go `makeStatefulSetPodController`; `none` is the panic of
`*statefulSetStatus.ObservedGeneration` or of `*statefulSet.Spec.Replicas` on a nil
pointer. -/
def makeStatefulSetPodController (statefulSet : apiapps.StatefulSet) : Option podController :=
  let objectMeta := statefulSet.ObjectMeta
  let statefulSetStatus := statefulSet.Status
  let status : Option String :=
    match statefulSetStatus.ObservedGeneration with
    | none => none
    | some observed =>
      if observed ≥ objectMeta.Generation then
        match statefulSet.Spec.Replicas with
        | none => none
        | some wanted =>
          let updated := statefulSetStatus.UpdatedReplicas
          if updated = wanted then some StatusReady
          else some (sprintD updated ++ " out of " ++ sprintD wanted ++ " updated")
      else some StatusUpdating
  status.map fun status =>
    { apiVersion := "apps/v1beta1"
      kind := "StatefulSet"
      name := statefulSet.ObjectMeta.Name
      status := status
      podTemplate := statefulSet.Spec.Template
      apiObject := .statefulSet statefulSet }

/-- Go `makeCronJobPodController`. -/
def makeCronJobPodController (cronJob : apibatch.CronJob) : podController :=
  { apiVersion := "batch/v1beta1"
    kind := "CronJob"
    name := cronJob.ObjectMeta.Name
    status := StatusReady
    podTemplate := cronJob.Template
    apiObject := .cronJob cronJob }

/-- Go `createK8sContainers`. -/
def createK8sContainers (containers : List resource.Container) : List apiv1.Container :=
  if containers.length = 0 then []
  else
    containers.foldl
      (fun k8scontainers c =>
        let tag := c.Image.Tag
        let domain := c.Image.Name.Domain
        let image := c.Image.Name.Image
        let concatImage := if tag = "" then image else domain ++ "/" ++ image
        let concatImage := if tag ≠ "" then concatImage ++ ":" ++ tag else concatImage
        k8scontainers ++ [{ Name := c.Name, Image := concatImage }])
      []

/-- Go `makeFluxHelmReleasePodTemplate`; the argument is a pointer, `none` is nil. -/
def makeFluxHelmReleasePodTemplate (P : Prims) (fhr : Option ifv1.FluxHelmRelease) :
    apiv1.PodTemplateSpec :=
  let pts := apiv1.PodTemplateSpec.zero
  match fhr with
  | none => pts
  | some fhr =>
    let resFhr : k8sresource.FluxHelmRelease := { Meta := ⟨"", ""⟩, Spec := fhr.Spec }
    let containers := resFhr.Containers P
    let k8scontainers := createK8sContainers containers
    { ObjectMeta := fhr.ObjectMeta, Spec := { Containers := k8scontainers } }

/-- Go `makeFluxHelmReleasePodController`, on a pointer that is not nil. -/
def makeFluxHelmReleasePodController (P : Prims) (fhr : ifv1.FluxHelmRelease) : podController :=
  let podSpecTemplate := makeFluxHelmReleasePodTemplate P (some fhr)
  { apiVersion := "helm.integrations.flux.weave.works/v1alpha"
    kind := "FluxHelmRelease"
    name := fhr.ObjectMeta.Name
    status := StatusReady
    podTemplate := podSpecTemplate
    apiObject := .fluxHelmRelease fhr }

/-- A parser to run the definitions on: it rejects the empty string and every string holding
a blank, and reads any other string as a repository path with no domain and no tag. It
stands in for `image.ParseRef` in the concrete instances below. -/
def sampleParseRef (s : String) : image.Ref × Option image.Error :=
  if s = "" then (image.Ref.zero, some (.other "blank image name"))
  else if s.data.contains (Char.ofNat 32) then (image.Ref.zero, some .ErrMalformedImageID)
  else ({ Name := { Domain := "", Image := s }, Tag := "" }, none)

/-- The primitives with `sampleParseRef` as the parser. -/
def samplePrims : Prims :=
  { ParseRef := sampleParseRef
    malformedText := "malformed image ID"
    verbS := fun _ => "%!s(?)" }

/-! ### Concrete inputs -/

/-- A pod template with one container, `nginx`. -/
def sampleTemplate : apiv1.PodTemplateSpec :=
  { ObjectMeta := ⟨"web", "default", 0⟩, Spec := ⟨[⟨"web", "nginx"⟩]⟩ }

/-- A deployment at generation `gen`, observed at `obs`, `updated` of `wanted` replicas
updated. -/
def sampleDeployment (gen obs updated : Int) (wanted : Option Int) : apiext.Deployment :=
  { ObjectMeta := ⟨"web", "default", gen⟩
    Spec := ⟨wanted, sampleTemplate⟩
    Status := ⟨obs, updated⟩ }

/-- A daemon set at generation `gen`, observed at `obs`, `updated` of `wanted` scheduled. -/
def sampleDaemonSet (gen obs updated wanted : Int) : apiext.DaemonSet :=
  { ObjectMeta := ⟨"agent", "default", gen⟩
    Spec := ⟨sampleTemplate⟩
    Status := ⟨obs, updated, wanted⟩ }

/-- A stateful set at generation `gen`, observed at `obs`, `updated` of `wanted` replicas
updated. -/
def sampleStatefulSet (gen : Int) (obs : Option Int) (updated : Int) (wanted : Option Int) :
    apiapps.StatefulSet :=
  { ObjectMeta := ⟨"db", "default", gen⟩
    Spec := ⟨wanted, sampleTemplate⟩
    Status := ⟨obs, updated⟩ }

/-- A pod controller over the containers `cs`, with status `Ready`. -/
def samplePodController (cs : List apiv1.Container) : podController :=
  { apiVersion := "batch/v1beta1"
    kind := "CronJob"
    name := "job"
    status := StatusReady
    podTemplate := { ObjectMeta := ⟨"job", "default", 0⟩, Spec := ⟨cs⟩ }
    apiObject := .cronJob
      { ObjectMeta := ⟨"job", "default", 0⟩
        Template := { ObjectMeta := ⟨"job", "default", 0⟩, Spec := ⟨cs⟩ } } }

end kubernetes

namespace k8sresource

/-- The sub-chart mapping `{"image": {"repository": "quay.io/x/nginx-ingress-controller",
"tag": "0.12.0"}}`. -/
def controllerValue : Value :=
  .anyMap [("image", .strMap [("repository", "quay.io/x/nginx-ingress-controller"),
    ("tag", "0.12.0")])]

/-- The release `ingress` whose values tree is `{"controller": controllerValue}`. -/
def nestedRelease : FluxHelmRelease :=
  { Meta := ⟨"default", "ingress"⟩
    Spec := ⟨"charts/nginx-ingress", [("controller", controllerValue)]⟩ }

/-- A release named `web` of the chart `charts/web` with the values tree `values`. -/
def sampleRelease (values : Values) : FluxHelmRelease :=
  { Meta := ⟨"default", "web"⟩, Spec := ⟨"charts/web", values⟩ }

/-- The tree `{"controller": controllerValue, "db": {"name": "db", "image": "mariadb",
"tag": "10.1"}, "replicas": 3, "nameOverride": "web"}`: two sub-charts with an image, a
number and a string, no top-level `image`. -/
def twoSubcharts : Values :=
  [("controller", controllerValue),
   ("db", .anyMap [("name", .str "db"), ("image", .str "mariadb"), ("tag", .str "10.1")]),
   ("replicas", .other 3),
   ("nameOverride", .str "web")]

/-- The release `fhr` with the entries of its values tree visited in the order `values`: a
second evaluation of the release when `values` is a permutation of `fhr.Spec.Values`. -/
def FluxHelmRelease.withValues (fhr : FluxHelmRelease) (values : Values) : FluxHelmRelease :=
  { Meta := fhr.Meta, Spec := { ChartGitPath := fhr.Spec.ChartGitPath, Values := values } }

/-- The tree `{"web": {"image": ""}, "db": {"image": {}}}` with `web` visited first: the
image of `web` is the empty string, the image of `db` has no `repository`. -/
def twoFailingWebFirst : Values :=
  [("web", .anyMap [("image", .str "")]), ("db", .anyMap [("image", .strMap [])])]

/-- The same tree with `db` visited first. -/
def twoFailingDbFirst : Values :=
  [("db", .anyMap [("image", .strMap [])]), ("web", .anyMap [("image", .str "")])]

end k8sresource

namespace kubernetes

/-- The chart release `web` of the chart `charts/web` with the values tree `values`. -/
def sampleHelmRelease (values : Values) : ifv1.FluxHelmRelease :=
  { ObjectMeta := ⟨"web", "default", 1⟩, Spec := ⟨"charts/web", values⟩ }

end kubernetes

/-! # Theorems -/

/-! ## Appending in a loop -/

/-- A `for` loop that appends one element per item builds the mapped list after what was
there. -/
theorem foldl_append_singleton {α β : Type} (f : α → β) (l : List α) (acc : List β) :
    l.foldl (fun result c => result ++ [f c]) acc = acc ++ l.map f := by
  induction l generalizing acc with
  | nil => simp
  | cons a l ih => simp [ih]

namespace kubernetes

/-! ## The status of deployments, daemon sets and stateful sets -/

/-- C1. A deployment, daemon set or stateful set whose observed generation is strictly less
than its generation gets the status `StatusUpdating`, whatever its updated and desired counts
are (for a deployment and a stateful set also when `Spec.Replicas` is nil: the pointer is not
read on this branch). -/
theorem status_updating_of_observed_lt :
    (∀ d : apiext.Deployment, d.Status.ObservedGeneration < d.ObjectMeta.Generation →
      (makeDeploymentPodController d).map (·.status) = some StatusUpdating) ∧
    (∀ d : apiext.DaemonSet, d.Status.ObservedGeneration < d.ObjectMeta.Generation →
      (makeDaemonSetPodController d).status = StatusUpdating) ∧
    (∀ (s : apiapps.StatefulSet) (observed : Int),
      s.Status.ObservedGeneration = some observed → observed < s.ObjectMeta.Generation →
      (makeStatefulSetPodController s).map (·.status) = some StatusUpdating) := by
  refine ⟨?_, ?_, ?_⟩
  · intro d h
    simp [makeDeploymentPodController, not_le.mpr h]
  · intro d h
    simp [makeDaemonSetPodController, not_le.mpr h]
  · intro s observed hobs h
    simp [makeStatefulSetPodController, hobs, not_le.mpr h]

/-- C1 at generation 7 observed at 6, with 3 of 5, 4 of 4 and 0 of an unset count updated. -/
theorem status_updating_of_observed_lt_witness :
    (makeDeploymentPodController (sampleDeployment 7 6 3 (some 5))).map (·.status)
        = some "Updating" ∧
    (makeDeploymentPodController (sampleDeployment 7 6 0 none)).map (·.status)
        = some "Updating" ∧
    (makeDaemonSetPodController (sampleDaemonSet 7 6 4 4)).status = "Updating" ∧
    (makeStatefulSetPodController (sampleStatefulSet 7 (some 6) 3 (some 5))).map (·.status)
        = some "Updating" :=
  ⟨status_updating_of_observed_lt.1 (sampleDeployment 7 6 3 (some 5)) (by decide),
   status_updating_of_observed_lt.1 (sampleDeployment 7 6 0 none) (by decide),
   status_updating_of_observed_lt.2.1 (sampleDaemonSet 7 6 4 4) (by decide),
   status_updating_of_observed_lt.2.2 (sampleStatefulSet 7 (some 6) 3 (some 5)) 6 rfl
     (by decide)⟩

/-- C2. A deployment, daemon set or stateful set whose observed generation is at least its
generation and whose updated count equals its desired count gets the status
`StatusReady`. -/
theorem status_ready_of_observed_ge_of_updated_eq :
    (∀ (d : apiext.Deployment) (wanted : Int), d.Spec.Replicas = some wanted →
      d.Status.ObservedGeneration ≥ d.ObjectMeta.Generation →
      d.Status.UpdatedReplicas = wanted →
      (makeDeploymentPodController d).map (·.status) = some StatusReady) ∧
    (∀ d : apiext.DaemonSet, d.Status.ObservedGeneration ≥ d.ObjectMeta.Generation →
      d.Status.UpdatedNumberScheduled = d.Status.DesiredNumberScheduled →
      (makeDaemonSetPodController d).status = StatusReady) ∧
    (∀ (s : apiapps.StatefulSet) (observed wanted : Int),
      s.Status.ObservedGeneration = some observed → s.Spec.Replicas = some wanted →
      observed ≥ s.ObjectMeta.Generation → s.Status.UpdatedReplicas = wanted →
      (makeStatefulSetPodController s).map (·.status) = some StatusReady) := by
  refine ⟨?_, ?_, ?_⟩
  · intro d wanted hw h hu
    simp [makeDeploymentPodController, hw, ge_iff_le.mp h, hu]
  · intro d h hu
    simp [makeDaemonSetPodController, ge_iff_le.mp h, hu]
  · intro s observed wanted hobs hw h hu
    simp [makeStatefulSetPodController, hobs, hw, ge_iff_le.mp h, hu]

/-- C2 at generation 7 observed at 7 and at 9, with 5 of 5 updated. -/
theorem status_ready_of_observed_ge_of_updated_eq_witness :
    (makeDeploymentPodController (sampleDeployment 7 7 5 (some 5))).map (·.status)
        = some "Ready" ∧
    (makeDaemonSetPodController (sampleDaemonSet 7 9 5 5)).status = "Ready" ∧
    (makeStatefulSetPodController (sampleStatefulSet 7 (some 7) 5 (some 5))).map (·.status)
        = some "Ready" :=
  ⟨status_ready_of_observed_ge_of_updated_eq.1 (sampleDeployment 7 7 5 (some 5)) 5 rfl
     (by decide) rfl,
   status_ready_of_observed_ge_of_updated_eq.2.1 (sampleDaemonSet 7 9 5 5) (by decide) rfl,
   status_ready_of_observed_ge_of_updated_eq.2.2 (sampleStatefulSet 7 (some 7) 5 (some 5)) 7 5
     rfl rfl (by decide) rfl⟩

/-- C3. A deployment, daemon set or stateful set whose observed generation is at least its
generation and whose updated count `u` differs from its desired count `d` gets as status the
decimal rendering of `u`, then `" out of "`, then the decimal rendering of `d`, then
`" updated"`; with `u = 3` and `d = 5` that is `"3 out of 5 updated"`. -/
theorem status_progress_of_observed_ge_of_updated_ne :
    (∀ (d : apiext.Deployment) (wanted : Int), d.Spec.Replicas = some wanted →
      d.Status.ObservedGeneration ≥ d.ObjectMeta.Generation →
      d.Status.UpdatedReplicas ≠ wanted →
      (makeDeploymentPodController d).map (·.status)
        = some (sprintD d.Status.UpdatedReplicas ++ " out of " ++ sprintD wanted
            ++ " updated")) ∧
    (∀ d : apiext.DaemonSet, d.Status.ObservedGeneration ≥ d.ObjectMeta.Generation →
      d.Status.UpdatedNumberScheduled ≠ d.Status.DesiredNumberScheduled →
      (makeDaemonSetPodController d).status
        = sprintD d.Status.UpdatedNumberScheduled ++ " out of "
            ++ sprintD d.Status.DesiredNumberScheduled ++ " updated") ∧
    (∀ (s : apiapps.StatefulSet) (observed wanted : Int),
      s.Status.ObservedGeneration = some observed → s.Spec.Replicas = some wanted →
      observed ≥ s.ObjectMeta.Generation → s.Status.UpdatedReplicas ≠ wanted →
      (makeStatefulSetPodController s).map (·.status)
        = some (sprintD s.Status.UpdatedReplicas ++ " out of " ++ sprintD wanted
            ++ " updated")) ∧
    sprintD 3 ++ " out of " ++ sprintD 5 ++ " updated" = "3 out of 5 updated" := by
  refine ⟨?_, ?_, ?_, by decide⟩
  · intro d wanted hw h hu
    simp [makeDeploymentPodController, hw, ge_iff_le.mp h, hu]
  · intro d h hu
    simp [makeDaemonSetPodController, ge_iff_le.mp h, hu]
  · intro s observed wanted hobs hw h hu
    simp [makeStatefulSetPodController, hobs, hw, ge_iff_le.mp h, hu]

/-- C3 at generation 7 observed at 7, with 3 of 5 updated, and with -1 of 12 for the signed
rendering. -/
theorem status_progress_of_observed_ge_of_updated_ne_witness :
    (makeDeploymentPodController (sampleDeployment 7 7 3 (some 5))).map (·.status)
        = some "3 out of 5 updated" ∧
    (makeDaemonSetPodController (sampleDaemonSet 7 7 3 5)).status = "3 out of 5 updated" ∧
    (makeStatefulSetPodController (sampleStatefulSet 7 (some 8) 3 (some 5))).map (·.status)
        = some "3 out of 5 updated" ∧
    (makeDaemonSetPodController (sampleDaemonSet 7 7 (-1) 12)).status
        = "-1 out of 12 updated" :=
  ⟨status_progress_of_observed_ge_of_updated_ne.1 (sampleDeployment 7 7 3 (some 5)) 5 rfl
     (by decide) (by decide),
   status_progress_of_observed_ge_of_updated_ne.2.1 (sampleDaemonSet 7 7 3 5) (by decide)
     (by decide),
   status_progress_of_observed_ge_of_updated_ne.2.2.1 (sampleStatefulSet 7 (some 8) 3 (some 5))
     8 5 rfl rfl (by decide) (by decide),
   status_progress_of_observed_ge_of_updated_ne.2.1 (sampleDaemonSet 7 7 (-1) 12) (by decide)
     (by decide)⟩

/-- C4. Every cron job and every chart release gets the status `StatusReady`, whatever its
metadata, generation, values tree or pod template, and whatever the image parser does. -/
theorem status_ready_cronJob_fluxHelmRelease :
    (∀ c : apibatch.CronJob, (makeCronJobPodController c).status = StatusReady) ∧
    (∀ (P : Prims) (fhr : ifv1.FluxHelmRelease),
      (makeFluxHelmReleasePodController P fhr).status = StatusReady) :=
  ⟨fun _ => rfl, fun _ _ => rfl⟩

/-! ## From a pod controller to a cluster controller -/

/-- The loop of `toClusterController` over containers that all parse: every container is
appended, and the excuse stays empty. -/
theorem toClusterController_loop_ok (P : Prims) (l : List apiv1.Container)
    (acc : List resource.Container) (h : ∀ x ∈ l, (P.ParseRef x.Image).2 = none) :
    toClusterController.loop P l acc
      = (acc ++ l.map (fun c => { Name := c.Name, Image := (P.ParseRef c.Image).1 }), "") := by
  induction l generalizing acc with
  | nil => simp [toClusterController.loop]
  | cons c l ih =>
    have hc : (P.ParseRef c.Image).2 = none := h c (List.mem_cons_self c l)
    have hl : ∀ x ∈ l, (P.ParseRef x.Image).2 = none :=
      fun x hx => h x (List.mem_cons_of_mem c hx)
    rcases hp : P.ParseRef c.Image with ⟨r, e⟩
    rw [hp] at hc
    simp only at hc
    subst hc
    simp [toClusterController.loop, hp, ih _ hl]

/-- The loop of `toClusterController` leaves at the first container that does not parse,
with no container and the text of that error. -/
theorem toClusterController_loop_err (P : Prims) (pre post : List apiv1.Container)
    (c : apiv1.Container) (err : image.Error) (acc : List resource.Container)
    (hpre : ∀ x ∈ pre, (P.ParseRef x.Image).2 = none)
    (hc : (P.ParseRef c.Image).2 = some err) :
    toClusterController.loop P (pre ++ c :: post) acc = ([], err.ErrorText P) := by
  induction pre generalizing acc with
  | nil =>
    rcases hp : P.ParseRef c.Image with ⟨r, e⟩
    rw [hp] at hc
    simp only at hc
    subst hc
    simp [toClusterController.loop, hp]
  | cons a pre ih =>
    have ha : (P.ParseRef a.Image).2 = none := hpre a (List.mem_cons_self a pre)
    have hl : ∀ x ∈ pre, (P.ParseRef x.Image).2 = none :=
      fun x hx => hpre x (List.mem_cons_of_mem a hx)
    rcases hp : P.ParseRef a.Image with ⟨r, e⟩
    rw [hp] at ha
    simp only at ha
    subst ha
    simp [toClusterController.loop, hp, ih _ hl]

/-- A template with a rejected container has a first one: the containers before it all
parse. -/
theorem exists_first_rejected (P : Prims) (l : List apiv1.Container)
    (h : ∃ x ∈ l, (P.ParseRef x.Image).2 ≠ none) :
    ∃ pre c post err, l = pre ++ c :: post ∧
      (∀ x ∈ pre, (P.ParseRef x.Image).2 = none) ∧ (P.ParseRef c.Image).2 = some err := by
  induction l with
  | nil => simp at h
  | cons a l ih =>
    cases ha : (P.ParseRef a.Image).2 with
    | some e => exact ⟨[], a, l, e, rfl, by simp, ha⟩
    | none =>
      obtain ⟨x, hx, hrej⟩ := h
      have hxl : x ∈ l := by
        rcases List.mem_cons.mp hx with hxa | hxl
        · subst hxa
          exact absurd ha hrej
        · exact hxl
      obtain ⟨pre, c, post, err, hsplit, hpre, hc⟩ := ih ⟨x, hxl, hrej⟩
      refine ⟨a :: pre, c, post, err, by simp [hsplit], ?_, hc⟩
      intro y hy
      rcases List.mem_cons.mp hy with hya | hyp
      · subst hya
        exact ha
      · exact hpre y hyp

/-- C5. When the template of a pod controller has a container whose image string the parser
rejects, there is a first such container in template order, and `toClusterController` gives
no containers and as excuse the text of the error the parser gave for that first one; the
containers before it all parsed. -/
theorem toClusterController_excuse_of_first_rejected :
    (∀ (P : Prims) (pc : podController) (resourceID : String)
      (pre post : List apiv1.Container) (c : apiv1.Container) (err : image.Error),
      pc.podTemplate.Spec.Containers = pre ++ c :: post →
      (∀ x ∈ pre, (P.ParseRef x.Image).2 = none) →
      (P.ParseRef c.Image).2 = some err →
      (pc.toClusterController P resourceID).Containers.Containers = [] ∧
      (pc.toClusterController P resourceID).Containers.Excuse = err.ErrorText P) ∧
    (∀ (P : Prims) (pc : podController) (resourceID : String),
      (∃ x ∈ pc.podTemplate.Spec.Containers, (P.ParseRef x.Image).2 ≠ none) →
      (pc.toClusterController P resourceID).Containers.Containers = [] ∧
      ∃ pre c post err, pc.podTemplate.Spec.Containers = pre ++ c :: post ∧
        (∀ x ∈ pre, (P.ParseRef x.Image).2 = none) ∧
        (P.ParseRef c.Image).2 = some err ∧
        (pc.toClusterController P resourceID).Containers.Excuse = err.ErrorText P) := by
  have key : ∀ (P : Prims) (pc : podController) (resourceID : String)
      (pre post : List apiv1.Container) (c : apiv1.Container) (err : image.Error),
      pc.podTemplate.Spec.Containers = pre ++ c :: post →
      (∀ x ∈ pre, (P.ParseRef x.Image).2 = none) →
      (P.ParseRef c.Image).2 = some err →
      (pc.toClusterController P resourceID).Containers.Containers = [] ∧
      (pc.toClusterController P resourceID).Containers.Excuse = err.ErrorText P := by
    intro P pc resourceID pre post c err hsplit hpre hc
    simp [podController.toClusterController, hsplit,
      toClusterController_loop_err P pre post c err [] hpre hc]
  refine ⟨key, ?_⟩
  intro P pc resourceID h
  obtain ⟨pre, c, post, err, hsplit, hpre, hc⟩ := exists_first_rejected P _ h
  have hk := key P pc resourceID pre post c err hsplit hpre hc
  exact ⟨hk.1, pre, c, post, err, hsplit, hpre, hc, hk.2⟩

/-- C5 on the containers `nginx`, the empty image string and `redis`: the first parses, the
second is rejected, and the excuse is the parser's text for the second. -/
theorem toClusterController_excuse_of_first_rejected_witness :
    ((samplePodController [⟨"a", "nginx"⟩, ⟨"b", ""⟩, ⟨"c", "redis"⟩]).toClusterController
        samplePrims "default:cronjob/job").Containers.Containers = [] ∧
    ((samplePodController [⟨"a", "nginx"⟩, ⟨"b", ""⟩, ⟨"c", "redis"⟩]).toClusterController
        samplePrims "default:cronjob/job").Containers.Excuse = "blank image name" :=
  toClusterController_excuse_of_first_rejected.1 samplePrims
    (samplePodController [⟨"a", "nginx"⟩, ⟨"b", ""⟩, ⟨"c", "redis"⟩]) "default:cronjob/job"
    [⟨"a", "nginx"⟩] [⟨"c", "redis"⟩] ⟨"b", ""⟩ (.other "blank image name") rfl
    (by decide) (by decide)

/-- C6. When every image string of the template parses, `toClusterController` gives the
empty excuse and one container per template container, in the template's order, each with
that container's name and the parsed reference of its image string. -/
theorem toClusterController_containers_of_all_parse (P : Prims) (pc : podController)
    (resourceID : String)
    (h : ∀ x ∈ pc.podTemplate.Spec.Containers, (P.ParseRef x.Image).2 = none) :
    (pc.toClusterController P resourceID).Containers.Excuse = "" ∧
    (pc.toClusterController P resourceID).Containers.Containers
      = pc.podTemplate.Spec.Containers.map
          (fun c => { Name := c.Name, Image := (P.ParseRef c.Image).1 }) := by
  simp [podController.toClusterController, toClusterController_loop_ok P _ [] h]

/-- C6 on the containers `nginx` and `redis`. -/
theorem toClusterController_containers_of_all_parse_witness :
    ((samplePodController [⟨"a", "nginx"⟩, ⟨"c", "redis"⟩]).toClusterController
        samplePrims "default:cronjob/job").Containers.Excuse = "" ∧
    ((samplePodController [⟨"a", "nginx"⟩, ⟨"c", "redis"⟩]).toClusterController
        samplePrims "default:cronjob/job").Containers.Containers
      = [⟨"a", ⟨⟨"", "nginx"⟩, ""⟩⟩, ⟨"c", ⟨⟨"", "redis"⟩, ""⟩⟩] :=
  toClusterController_containers_of_all_parse samplePrims
    (samplePodController [⟨"a", "nginx"⟩, ⟨"c", "redis"⟩]) "default:cronjob/job" (by decide)

end kubernetes

namespace k8sresource

/-! ## `PodTemplate.Containers` -/

/-- C7 (what the code does). `PodTemplate.Containers` returns one container per container of
the template whether or not its image string parses, each with the reference the parser
returned beside its error or nil; on `nginx` followed by the empty image string, which the
sample parser rejects, it returns both containers. -/
theorem PodTemplate_Containers_keeps_rejected :
    (∀ (P : Prims) (t : PodTemplate),
      t.Containers P
        = t.Spec.Containers.map
            (fun c => { Name := c.Name, Image := (P.ParseRef c.Image).1 })) ∧
    (kubernetes.samplePrims.ParseRef "").2 = some (.other "blank image name") ∧
    PodTemplate.Containers kubernetes.samplePrims ⟨⟨[⟨"a", "nginx"⟩, ⟨"b", ""⟩]⟩⟩
      = [⟨"a", ⟨⟨"", "nginx"⟩, ""⟩⟩, ⟨"b", ⟨⟨"", ""⟩, ""⟩⟩] := by
  refine ⟨?_, by decide, by decide⟩
  intro P t
  simp [PodTemplate.Containers, foldl_append_singleton]

/-! ## The top-level image of a chart release -/

/-- A map in which a key is present has an entry. -/
theorem length_ne_zero_of_lookup {β : Type} (m : List (String × β)) (k : String) (v : β)
    (h : m.lookup k = some v) : m.length ≠ 0 := by
  cases m with
  | nil => simp at h
  | cons a m => simp

/-- Decoding a top-level image reads the map around it only at `imageTag` and `tag`. -/
theorem processImageInfo_congr (P : Prims) (values values' : Values) (v : Value)
    (h1 : values'.lookup "imageTag" = values.lookup "imageTag")
    (h2 : values'.lookup "tag" = values.lookup "tag") :
    processImageInfo P values' v = processImageInfo P values v := by
  cases v <;> simp [processImageInfo, processImageString, h1, h2]

/-- C8. When the values tree has a top-level key `image` whose value `processImageInfo`
decodes to `r`, `CreateContainers` returns no error and the one container named
`Spec.ChartGitPath` with image `r`; and two releases with the same chart path whose trees
agree at the keys `image`, `imageTag` and `tag`, the first having `image`, get the same
result, whatever else the trees or the releases hold. -/
theorem CreateContainers_top_level_image :
    (∀ (P : Prims) (fhr : FluxHelmRelease) (v : Value) (r : image.Ref),
      fhr.Spec.Values.lookup "image" = some v →
      processImageInfo P fhr.Spec.Values v = .ok r →
      CreateContainers P fhr = .ok [{ Name := fhr.Spec.ChartGitPath, Image := r }]) ∧
    (∀ (P : Prims) (fhr fhr' : FluxHelmRelease) (v : Value),
      fhr.Spec.Values.lookup "image" = some v →
      fhr'.Spec.ChartGitPath = fhr.Spec.ChartGitPath →
      fhr'.Spec.Values.lookup "image" = fhr.Spec.Values.lookup "image" →
      fhr'.Spec.Values.lookup "imageTag" = fhr.Spec.Values.lookup "imageTag" →
      fhr'.Spec.Values.lookup "tag" = fhr.Spec.Values.lookup "tag" →
      CreateContainers P fhr' = CreateContainers P fhr) := by
  refine ⟨?_, ?_⟩
  · intro P fhr v r hv hr
    simp [CreateContainers, length_ne_zero_of_lookup _ _ _ hv, hv, hr]
  · intro P fhr fhr' v hv hpath himg htag1 htag2
    have hv' : fhr'.Spec.Values.lookup "image" = some v := by rw [himg, hv]
    simp [CreateContainers, length_ne_zero_of_lookup _ _ _ hv,
      length_ne_zero_of_lookup _ _ _ hv', hv, hv', hpath,
      processImageInfo_congr P _ _ v htag1 htag2]

/-- C8 on `{"replicas": 3, "image": "nginx", "tag": "1.21"}` read by the sample parser, and
against the same tree with the sub-chart `controller` added and `replicas` dropped. -/
theorem CreateContainers_top_level_image_witness :
    CreateContainers kubernetes.samplePrims
        (sampleRelease [("replicas", .other 3), ("image", .str "nginx"), ("tag", .str "1.21")])
      = .ok [⟨"charts/web", ⟨⟨"", "nginx:1.21"⟩, ""⟩⟩] ∧
    CreateContainers kubernetes.samplePrims
        { Meta := ⟨"kube-system", "other"⟩
          Spec := ⟨"charts/web",
            [("controller", controllerValue), ("tag", .str "1.21"), ("image", .str "nginx")]⟩ }
      = CreateContainers kubernetes.samplePrims
        (sampleRelease [("replicas", .other 3), ("image", .str "nginx"), ("tag", .str "1.21")]) :=
  ⟨CreateContainers_top_level_image.1 kubernetes.samplePrims
      (sampleRelease [("replicas", .other 3), ("image", .str "nginx"), ("tag", .str "1.21")])
      (.str "nginx") ⟨⟨"", "nginx:1.21"⟩, ""⟩ rfl rfl,
   CreateContainers_top_level_image.2 kubernetes.samplePrims
      (sampleRelease [("replicas", .other 3), ("image", .str "nginx"), ("tag", .str "1.21")])
      _ (.str "nginx") rfl rfl rfl rfl rfl⟩

/-! ## Sub-charts of a chart release -/

/-- On the release `nestedRelease`, `CreateContainers` ends in the parser's error or in the
empty list, whatever the parser is. -/
theorem CreateContainers_nestedRelease (P : Prims) :
    CreateContainers P nestedRelease = .ok [] ∨
    ∃ err, CreateContainers P nestedRelease = .error err := by
  rcases hp : P.ParseRef "quay.io/x/nginx-ingress-controller:0.12.0" with ⟨r, _ | e⟩
  · left
    simp [CreateContainers, nestedRelease, controllerValue, CreateContainers.loop,
      FluxHelmRelease.findImage, processImageData, processImageMap, parseOrErr, hp,
      List.lookup]
  · right
    exact ⟨e, by
      simp [CreateContainers, nestedRelease, controllerValue, CreateContainers.loop,
        FluxHelmRelease.findImage, processImageData, processImageMap, parseOrErr, hp,
        List.lookup]⟩

/-- C9 (what the code does). On the tree `{"controller": {"image": {"repository":
"quay.io/x/nginx-ingress-controller", "tag": "0.12.0"}}}` of the release `ingress`, no parser
makes `CreateContainers` return one container, and with the sample parser, which accepts the
image, it returns the empty list. It returns the empty list also when the release itself is
named `controller`, and when the sub-chart names itself (`{"controller": {"name": "nginx",
"image": "nginx"}}`): `findImage` finds the pair of name and image, the loop appends it, and
the `return` after the loop gives a fresh empty slice. -/
theorem CreateContainers_nested_discards_found :
    (¬ ∃ (P : Prims) (c : resource.Container), CreateContainers P nestedRelease = .ok [c]) ∧
    nestedRelease.findImage kubernetes.samplePrims "controller" controllerValue
      = .ok ("ingress", ⟨⟨"", "quay.io/x/nginx-ingress-controller:0.12.0"⟩, ""⟩) ∧
    CreateContainers kubernetes.samplePrims nestedRelease = .ok [] ∧
    FluxHelmRelease.findImage kubernetes.samplePrims
        { Meta := ⟨"default", "controller"⟩, Spec := nestedRelease.Spec } "controller"
        controllerValue
      = .ok ("controller", ⟨⟨"", "quay.io/x/nginx-ingress-controller:0.12.0"⟩, ""⟩) ∧
    CreateContainers kubernetes.samplePrims
        { Meta := ⟨"default", "controller"⟩, Spec := nestedRelease.Spec } = .ok [] ∧
    (sampleRelease [("controller", .anyMap [("name", .str "nginx"), ("image", .str "nginx")])]
        ).findImage kubernetes.samplePrims "controller"
        (.anyMap [("name", .str "nginx"), ("image", .str "nginx")])
      = .ok ("nginx", ⟨⟨"", "nginx"⟩, ""⟩) ∧
    CreateContainers kubernetes.samplePrims
        (sampleRelease [("controller", .anyMap [("name", .str "nginx"), ("image", .str "nginx")])])
      = .ok [] := by
  refine ⟨?_, rfl, rfl, rfl, rfl, rfl, rfl⟩
  rintro ⟨P, c, h⟩
  rcases CreateContainers_nestedRelease P with h0 | ⟨err, herr⟩
  · rw [h0] at h
    simp at h
  · rw [herr] at h
    simp at h

/-! ## An image given as a string -/

/-- C10. `processImageString` returns what the parser returns (its reference, or its error)
on `v:imageTag` when the map around the image has a string at `imageTag`, whether or not it
has `tag`; else on `v:tag` when it has a string at `tag`; else on `v`. So
`{"image": "nginx", "tag": "1.21"}` hands `nginx:1.21` to the parser, and `{"image":
"nginx"}` hands it `nginx`, which gives the reference with image `nginx` and no domain or tag
when the parser reads `nginx` so. -/
theorem processImageString_parses_combined :
    (∀ (P : Prims) (values : Values) (v t : String),
      values.lookup "imageTag" = some (.str t) →
      processImageString P values v = parseOrErr P (v ++ ":" ++ t)) ∧
    (∀ (P : Prims) (values : Values) (v t : String),
      values.lookup "imageTag" = none → values.lookup "tag" = some (.str t) →
      processImageString P values v = parseOrErr P (v ++ ":" ++ t)) ∧
    (∀ (P : Prims) (values : Values) (v : String),
      values.lookup "imageTag" = none → values.lookup "tag" = none →
      processImageString P values v = parseOrErr P v) ∧
    (∀ P : Prims,
      processImageString P [("image", .str "nginx"), ("tag", .str "1.21")] "nginx"
        = parseOrErr P "nginx:1.21") ∧
    (∀ P : Prims, P.ParseRef "nginx" = (⟨⟨"", "nginx"⟩, ""⟩, none) →
      processImageString P [("image", .str "nginx")] "nginx" = .ok ⟨⟨"", "nginx"⟩, ""⟩) := by
  refine ⟨?_, ?_, ?_, ?_, ?_⟩
  · intro P values v t h
    simp [processImageString, h, sprintS]
  · intro P values v t h1 h2
    simp [processImageString, h1, h2, sprintS]
  · intro P values v h1 h2
    simp [processImageString, h1, h2]
  · intro P
    rfl
  · intro P hp
    simp [processImageString, parseOrErr, hp, List.lookup]

/-- C10 read by the sample parser: `imageTag` goes before `tag`, `tag` is used when there is
no `imageTag`, and a lone `nginx` gives the reference with image `nginx`. -/
theorem processImageString_parses_combined_witness :
    processImageString kubernetes.samplePrims
        [("image", .str "nginx"), ("tag", .str "1.21"), ("imageTag", .str "1.22")] "nginx"
      = .ok ⟨⟨"", "nginx:1.22"⟩, ""⟩ ∧
    processImageString kubernetes.samplePrims
        [("image", .str "nginx"), ("tag", .str "1.21")] "nginx"
      = .ok ⟨⟨"", "nginx:1.21"⟩, ""⟩ ∧
    processImageString kubernetes.samplePrims [("image", .str "nginx")] "nginx"
      = .ok ⟨⟨"", "nginx"⟩, ""⟩ :=
  ⟨processImageString_parses_combined.1 kubernetes.samplePrims
      [("image", .str "nginx"), ("tag", .str "1.21"), ("imageTag", .str "1.22")] "nginx" "1.22"
      rfl,
   processImageString_parses_combined.2.1 kubernetes.samplePrims
      [("image", .str "nginx"), ("tag", .str "1.21")] "nginx" "1.21" rfl rfl,
   processImageString_parses_combined.2.2.2.2 kubernetes.samplePrims rfl⟩

/-! ## An image given as a mapping -/

/-- C11. For a string-to-string image mapping with `repository` = `I`, `processImageMap`
returns what the parser returns (its reference, or its error) on `I` when the mapping has
neither `registry` nor `tag`, on `I:T` when it has only `tag` = `T`, and on `R/I` when it has
only `registry` = `R`; so `{"repository": "bitnami/mariadb"}` gives what parsing
`bitnami/mariadb` gives. -/
theorem processImageMap_parses_by_table :
    (∀ (P : Prims) (val : List (String × String)) (I : String),
      val.lookup "repository" = some I → val.lookup "registry" = none →
      val.lookup "tag" = none → processImageMap P val = parseOrErr P I) ∧
    (∀ (P : Prims) (val : List (String × String)) (I T : String),
      val.lookup "repository" = some I → val.lookup "registry" = none →
      val.lookup "tag" = some T → processImageMap P val = parseOrErr P (I ++ ":" ++ T)) ∧
    (∀ (P : Prims) (val : List (String × String)) (I R : String),
      val.lookup "repository" = some I → val.lookup "registry" = some R →
      val.lookup "tag" = none → processImageMap P val = parseOrErr P (R ++ "/" ++ I)) ∧
    (∀ P : Prims,
      processImageMap P [("repository", "bitnami/mariadb")] = parseOrErr P "bitnami/mariadb") := by
  refine ⟨?_, ?_, ?_, ?_⟩
  · intro P val I hi hd ht
    simp [processImageMap, hi, hd, ht]
  · intro P val I T hi hd ht
    simp [processImageMap, hi, hd, ht]
  · intro P val I R hi hd ht
    simp [processImageMap, hi, hd, ht]
  · intro P
    rfl

/-- C11 read by the sample parser, which accepts `bitnami/mariadb`, `bitnami/mariadb:10.1.32`
and `docker.io/bitnami/mariadb` and rejects the empty repository. -/
theorem processImageMap_parses_by_table_witness :
    processImageMap kubernetes.samplePrims [("pullPolicy", "Always"), ("repository", "")]
      = .error (.other "blank image name") ∧
    processImageMap kubernetes.samplePrims
        [("repository", "bitnami/mariadb"), ("tag", "10.1.32")]
      = .ok ⟨⟨"", "bitnami/mariadb:10.1.32"⟩, ""⟩ ∧
    processImageMap kubernetes.samplePrims
        [("registry", "docker.io"), ("repository", "bitnami/mariadb")]
      = .ok ⟨⟨"", "docker.io/bitnami/mariadb"⟩, ""⟩ :=
  ⟨processImageMap_parses_by_table.1 kubernetes.samplePrims
      [("pullPolicy", "Always"), ("repository", "")] "" rfl rfl rfl,
   processImageMap_parses_by_table.2.1 kubernetes.samplePrims
      [("repository", "bitnami/mariadb"), ("tag", "10.1.32")] "bitnami/mariadb" "10.1.32"
      rfl rfl rfl,
   processImageMap_parses_by_table.2.2.1 kubernetes.samplePrims
      [("registry", "docker.io"), ("repository", "bitnami/mariadb")] "bitnami/mariadb"
      "docker.io" rfl rfl rfl⟩

/-- C12. For a string-to-string image mapping with `repository` = `I`, `registry` = `R` and
`tag` = `T`, `processImageMap` succeeds with the reference of domain `R`, image `I` and tag
`T`, whatever `I`, `R` and `T` are and whatever the parser is: two parsers give the same
result. So repository `bitnami/mariadb`, registry `docker.io`, tag `10.1.32` give domain
`docker.io`, image `bitnami/mariadb`, tag `10.1.32`. -/
theorem processImageMap_constructs_directly :
    (∀ (P : Prims) (val : List (String × String)) (I R T : String),
      val.lookup "repository" = some I → val.lookup "registry" = some R →
      val.lookup "tag" = some T →
      processImageMap P val = .ok { Name := { Domain := R, Image := I }, Tag := T }) ∧
    (∀ (P P' : Prims) (val : List (String × String)) (I R T : String),
      val.lookup "repository" = some I → val.lookup "registry" = some R →
      val.lookup "tag" = some T → processImageMap P val = processImageMap P' val) ∧
    (∀ P : Prims,
      processImageMap P
          [("repository", "bitnami/mariadb"), ("registry", "docker.io"), ("tag", "10.1.32")]
        = .ok ⟨⟨"docker.io", "bitnami/mariadb"⟩, "10.1.32"⟩) := by
  refine ⟨?_, ?_, ?_⟩
  · intro P val I R T hi hd ht
    simp [processImageMap, hi, hd, ht]
  · intro P P' val I R T hi hd ht
    simp [processImageMap, hi, hd, ht]
  · intro P
    rfl

/-- C12 on a repository, a registry and a tag that the sample parser would reject, each
holding a blank or being empty. -/
theorem processImageMap_constructs_directly_witness :
    (kubernetes.samplePrims.ParseRef "my registry/my image:").2
      = some image.Error.ErrMalformedImageID ∧
    processImageMap kubernetes.samplePrims
        [("tag", ""), ("registry", "my registry"), ("repository", "my image")]
      = .ok ⟨⟨"my registry", "my image"⟩, ""⟩ :=
  ⟨by decide,
   processImageMap_constructs_directly.1 kubernetes.samplePrims
      [("tag", ""), ("registry", "my registry"), ("repository", "my image")] "my image"
      "my registry" "" rfl rfl rfl⟩

/-- C13. When the top-level `image` of a release is a string-to-string mapping with no
`repository`, whatever its `registry` and `tag`, `CreateContainers` fails with
`ErrMalformedImageID`, so with no containers; `{"image": {}}` is such a tree. -/
theorem CreateContainers_malformed_of_no_repository :
    (∀ (P : Prims) (fhr : FluxHelmRelease) (m : List (String × String)),
      fhr.Spec.Values.lookup "image" = some (.strMap m) → m.lookup "repository" = none →
      CreateContainers P fhr = .error .ErrMalformedImageID) ∧
    (∀ (P : Prims) (fhr : FluxHelmRelease), fhr.Spec.Values = [("image", .strMap [])] →
      CreateContainers P fhr = .error .ErrMalformedImageID) := by
  have key : ∀ (P : Prims) (fhr : FluxHelmRelease) (m : List (String × String)),
      fhr.Spec.Values.lookup "image" = some (.strMap m) → m.lookup "repository" = none →
      CreateContainers P fhr = .error .ErrMalformedImageID := by
    intro P fhr m hv hm
    simp [CreateContainers, length_ne_zero_of_lookup _ _ _ hv, hv, processImageInfo,
      processImageMap, hm]
  refine ⟨key, ?_⟩
  intro P fhr h
  exact key P fhr [] (by rw [h]; rfl) rfl

/-- C13 on `{"image": {"registry": "docker.io", "tag": "10.1.32"}}` and on
`{"image": {}}`. -/
theorem CreateContainers_malformed_of_no_repository_witness :
    CreateContainers kubernetes.samplePrims
        (sampleRelease [("replicas", .other 3),
          ("image", .strMap [("registry", "docker.io"), ("tag", "10.1.32")])])
      = .error .ErrMalformedImageID ∧
    CreateContainers kubernetes.samplePrims (sampleRelease [("image", .strMap [])])
      = .error .ErrMalformedImageID :=
  ⟨CreateContainers_malformed_of_no_repository.1 kubernetes.samplePrims
      (sampleRelease [("replicas", .other 3),
        ("image", .strMap [("registry", "docker.io"), ("tag", "10.1.32")])])
      [("registry", "docker.io"), ("tag", "10.1.32")] rfl rfl,
   CreateContainers_malformed_of_no_repository.2 kubernetes.samplePrims
      (sampleRelease [("image", .strMap [])]) rfl⟩

/-- C14. For an image value that is neither a string nor a string-to-string mapping,
`processImageInfo` (the top-level image) fails with `ErrMalformedImageID`, and
`processImageData` on a sub-chart mapping whose `image` is that value returns the zero
reference and no error. -/
theorem other_image_value_fails_top_level_not_nested :
    (∀ (P : Prims) (values : Values) (v : Value),
      (∀ s, v ≠ .str s) → (∀ m, v ≠ .strMap m) →
      processImageInfo P values v = .error .ErrMalformedImageID) ∧
    (∀ (P : Prims) (value : Values) (v : Value),
      (∀ s, v ≠ .str s) → (∀ m, v ≠ .strMap m) → value.lookup "image" = some v →
      processImageData P value = .ok image.Ref.zero) := by
  refine ⟨?_, ?_⟩
  · intro P values v hs hm
    cases v with
    | str s => exact absurd rfl (hs s)
    | strMap m => exact absurd rfl (hm m)
    | anyMap m => rfl
    | other n => rfl
  · intro P value v hs hm hv
    cases v with
    | str s => exact absurd rfl (hs s)
    | strMap m => exact absurd rfl (hm m)
    | anyMap m => simp [processImageData, hv]
    | other n => simp [processImageData, hv]

/-- C14 on the number `other 5` and on the mapping `{"repository": "nginx"}` read as a
`map[string]interface{}`. -/
theorem other_image_value_fails_top_level_not_nested_witness :
    processImageInfo kubernetes.samplePrims [("image", .other 5)] (.other 5)
      = .error .ErrMalformedImageID ∧
    processImageData kubernetes.samplePrims [("image", .other 5)] = .ok ⟨⟨"", ""⟩, ""⟩ ∧
    processImageInfo kubernetes.samplePrims [] (.anyMap [("repository", .str "nginx")])
      = .error .ErrMalformedImageID ∧
    processImageData kubernetes.samplePrims
        [("name", .str "web"), ("image", .anyMap [("repository", .str "nginx")])]
      = .ok ⟨⟨"", ""⟩, ""⟩ :=
  ⟨other_image_value_fails_top_level_not_nested.1 kubernetes.samplePrims
      [("image", .other 5)] (.other 5) (by intro s h; cases h) (by intro m h; cases h),
   other_image_value_fails_top_level_not_nested.2 kubernetes.samplePrims
      [("image", .other 5)] (.other 5) (by intro s h; cases h) (by intro m h; cases h) rfl,
   other_image_value_fails_top_level_not_nested.1 kubernetes.samplePrims []
      (.anyMap [("repository", .str "nginx")]) (by intro s h; cases h) (by intro m h; cases h),
   other_image_value_fails_top_level_not_nested.2 kubernetes.samplePrims
      [("name", .str "web"), ("image", .anyMap [("repository", .str "nginx")])]
      (.anyMap [("repository", .str "nginx")]) (by intro s h; cases h) (by intro m h; cases h)
      rfl⟩

/-! ## Names of sub-charts, and the nested path of `CreateContainers` -/

/-- C17. For a mapping whose nested image `processImageData` decodes to `r`, `findImage`
returns `r` under the mapping's `name` entry when that entry is a string, and under
`Meta.Name` of the release when the entry is absent or is not a string; for a value that is
no `map[string]interface{}` (a string, a string-to-string mapping, any other type) it returns
the empty name, the zero reference and no error. -/
theorem findImage_name_or_release_name :
    (∀ (P : Prims) (fhr : FluxHelmRelease) (param : String) (val : Values) (r : image.Ref)
      (cns : String), processImageData P val = .ok r → val.lookup "name" = some (.str cns) →
      fhr.findImage P param (.anyMap val) = .ok (cns, r)) ∧
    (∀ (P : Prims) (fhr : FluxHelmRelease) (param : String) (val : Values) (r : image.Ref),
      processImageData P val = .ok r → val.lookup "name" = none →
      fhr.findImage P param (.anyMap val) = .ok (fhr.Meta.Name, r)) ∧
    (∀ (P : Prims) (fhr : FluxHelmRelease) (param : String) (val : Values) (r : image.Ref)
      (v : Value), processImageData P val = .ok r → val.lookup "name" = some v →
      (∀ s, v ≠ .str s) → fhr.findImage P param (.anyMap val) = .ok (fhr.Meta.Name, r)) ∧
    (∀ (P : Prims) (fhr : FluxHelmRelease) (param : String) (v : Value),
      (∀ m, v ≠ .anyMap m) → fhr.findImage P param v = .ok ("", image.Ref.zero)) := by
  refine ⟨?_, ?_, ?_, ?_⟩
  · intro P fhr param val r cns hr hn
    simp [FluxHelmRelease.findImage, hr, hn]
  · intro P fhr param val r hr hn
    simp [FluxHelmRelease.findImage, hr, hn]
  · intro P fhr param val r v hr hn hv
    cases v with
    | str s => exact absurd rfl (hv s)
    | strMap m => simp [FluxHelmRelease.findImage, hr, hn]
    | anyMap m => simp [FluxHelmRelease.findImage, hr, hn]
    | other n => simp [FluxHelmRelease.findImage, hr, hn]
  · intro P fhr param v hv
    cases v with
    | str s => rfl
    | strMap m => rfl
    | anyMap m => exact absurd rfl (hv m)
    | other n => rfl

/-- C17 on the release `ingress`, read by the sample parser: a sub-chart named `nginx`, one
with no name, one whose name is a number, and a top-level string. -/
theorem findImage_name_or_release_name_witness :
    nestedRelease.findImage kubernetes.samplePrims "web"
        (.anyMap [("name", .str "nginx"), ("image", .str "nginx")])
      = .ok ("nginx", ⟨⟨"", "nginx"⟩, ""⟩) ∧
    nestedRelease.findImage kubernetes.samplePrims "web" (.anyMap [("image", .str "nginx")])
      = .ok ("ingress", ⟨⟨"", "nginx"⟩, ""⟩) ∧
    nestedRelease.findImage kubernetes.samplePrims "web"
        (.anyMap [("name", .other 1), ("image", .str "nginx")])
      = .ok ("ingress", ⟨⟨"", "nginx"⟩, ""⟩) ∧
    nestedRelease.findImage kubernetes.samplePrims "nameOverride" (.str "web")
      = .ok ("", ⟨⟨"", ""⟩, ""⟩) :=
  ⟨findImage_name_or_release_name.1 kubernetes.samplePrims nestedRelease "web"
      [("name", .str "nginx"), ("image", .str "nginx")] ⟨⟨"", "nginx"⟩, ""⟩ "nginx" rfl rfl,
   findImage_name_or_release_name.2.1 kubernetes.samplePrims nestedRelease "web"
      [("image", .str "nginx")] ⟨⟨"", "nginx"⟩, ""⟩ rfl rfl,
   findImage_name_or_release_name.2.2.1 kubernetes.samplePrims nestedRelease "web"
      [("name", .other 1), ("image", .str "nginx")] ⟨⟨"", "nginx"⟩, ""⟩ (.other 1) rfl rfl
      (by intro s h; cases h),
   findImage_name_or_release_name.2.2.2 kubernetes.samplePrims nestedRelease "nameOverride"
      (.str "web") (by intro m h; cases h)⟩

/-- An error of `findImage` is an error of `processImageData` on a mapping. -/
theorem findImage_error (P : Prims) (fhr : FluxHelmRelease) (param : String) (v : Value)
    (e : image.Error) (h : fhr.findImage P param v = .error e) :
    ∃ val, v = .anyMap val ∧ processImageData P val = .error e := by
  cases v with
  | str s => simp [FluxHelmRelease.findImage] at h
  | strMap m => simp [FluxHelmRelease.findImage] at h
  | other n => simp [FluxHelmRelease.findImage] at h
  | anyMap val =>
    refine ⟨val, rfl, ?_⟩
    cases hd : processImageData P val with
    | error e' =>
      simp [FluxHelmRelease.findImage, hd] at h
      rw [h]
    | ok r => simp [FluxHelmRelease.findImage, hd] at h

/-- The loop of `CreateContainers` over entries none of which fails ends in the empty list,
whatever was appended. -/
theorem CreateContainers_loop_ok (P : Prims) (fhr : FluxHelmRelease) (l : Values)
    (acc : List resource.Container)
    (h : ∀ p ∈ l, ∀ e, fhr.findImage P p.1 p.2 ≠ .error e) :
    CreateContainers.loop P fhr l acc = .ok [] := by
  induction l generalizing acc with
  | nil => rfl
  | cons p l ih =>
    obtain ⟨param, value⟩ := p
    have hl : ∀ q ∈ l, ∀ e, fhr.findImage P q.1 q.2 ≠ .error e :=
      fun q hq => h q (List.mem_cons_of_mem _ hq)
    cases hf : fhr.findImage P param value with
    | error e => exact absurd hf (h (param, value) (List.mem_cons_self _ _) e)
    | ok r =>
      obtain ⟨cName, imageRef⟩ := r
      by_cases hc : cName = ""
      · simp [CreateContainers.loop, hf, hc, ih _ hl]
      · simp [CreateContainers.loop, hf, hc, ih _ hl]

/-- C18. For a release whose values tree is not empty, has no top-level `image` and in which
no sub-chart's nested image fails to decode, `CreateContainers` returns the empty list and no
error, however many of the sub-charts declare an image. -/
theorem CreateContainers_nested_returns_empty (P : Prims) (fhr : FluxHelmRelease)
    (hne : fhr.Spec.Values ≠ [])
    (himg : fhr.Spec.Values.lookup "image" = none)
    (hok : ∀ k val, (k, Value.anyMap val) ∈ fhr.Spec.Values →
      ∀ e, processImageData P val ≠ .error e) :
    CreateContainers P fhr = .ok [] := by
  have hlen : fhr.Spec.Values.length ≠ 0 := fun h => hne (List.length_eq_zero.mp h)
  have hall : ∀ p ∈ fhr.Spec.Values, ∀ e, fhr.findImage P p.1 p.2 ≠ .error e := by
    intro p hp e hf
    obtain ⟨val, hv, hd⟩ := findImage_error P fhr p.1 p.2 e hf
    have hmem : (p.1, Value.anyMap val) ∈ fhr.Spec.Values := by
      rw [← hv]
      exact hp
    exact hok p.1 val hmem e hd
  simp [CreateContainers, hlen, himg, CreateContainers_loop_ok P fhr _ [] hall]

/-- C18 on the tree `twoSubcharts`, in which two sub-charts declare an image that the sample
parser accepts. -/
theorem CreateContainers_nested_returns_empty_witness :
    nestedRelease.findImage kubernetes.samplePrims "db"
        (.anyMap [("name", .str "db"), ("image", .str "mariadb"), ("tag", .str "10.1")])
      = .ok ("db", ⟨⟨"", "mariadb:10.1"⟩, ""⟩) ∧
    CreateContainers kubernetes.samplePrims (sampleRelease twoSubcharts) = .ok [] :=
  ⟨rfl,
   CreateContainers_nested_returns_empty kubernetes.samplePrims (sampleRelease twoSubcharts)
    (by simp [sampleRelease, twoSubcharts]) rfl
    (by
      intro k val hmem e
      simp only [sampleRelease, twoSubcharts, controllerValue, List.mem_cons, Prod.mk.injEq,
        Value.anyMap.injEq, List.mem_singleton, List.not_mem_nil, or_false, reduceCtorEq,
        and_false] at hmem
      rcases hmem with ⟨_, h⟩ | ⟨_, h⟩
      · subst h
        intro hd
        have hr : processImageData kubernetes.samplePrims
            [("image", .strMap [("repository", "quay.io/x/nginx-ingress-controller"),
              ("tag", "0.12.0")])]
            = .ok ⟨⟨"", "quay.io/x/nginx-ingress-controller:0.12.0"⟩, ""⟩ := rfl
        rw [hr] at hd
        cases hd
      · subst h
        intro hd
        have hr : processImageData kubernetes.samplePrims
            [("name", .str "db"), ("image", .str "mariadb"), ("tag", .str "10.1")]
            = .ok ⟨⟨"", "mariadb:10.1"⟩, ""⟩ := rfl
        rw [hr] at hd
        cases hd)⟩

end k8sresource

namespace kubernetes

/-! ## The three forms of a status -/

/-- A progress string is longer than `Ready` and `Updating`: it has sixteen characters
besides its two numbers. -/
theorem progress_length (u w : Int) :
    (sprintD u ++ " out of " ++ sprintD w ++ " updated").length
      = (sprintD u).length + (sprintD w).length + 16 := by
  have h1 : " out of ".length = 8 := by decide
  have h2 : " updated".length = 8 := by decide
  simp only [String.length_append, h1, h2]
  omega

/-- C19. The status of a deployment, daemon set or stateful set is `StatusReady` (`Ready`),
`StatusUpdating` (`Updating`) or the progress string of its updated and desired counts, for
all generations, observed generations and counts; and the three forms exclude each other:
`Ready` is not `Updating`, and no progress string is `Ready` or `Updating`. -/
theorem status_forms_exhaustive_and_exclusive :
    (∀ (d : apiext.Deployment) (wanted : Int), d.Spec.Replicas = some wanted →
      ∃ st, (makeDeploymentPodController d).map (·.status) = some st ∧
        (st = StatusReady ∨ st = StatusUpdating ∨
          st = sprintD d.Status.UpdatedReplicas ++ " out of " ++ sprintD wanted
            ++ " updated")) ∧
    (∀ d : apiext.DaemonSet,
      (makeDaemonSetPodController d).status = StatusReady ∨
      (makeDaemonSetPodController d).status = StatusUpdating ∨
      (makeDaemonSetPodController d).status
        = sprintD d.Status.UpdatedNumberScheduled ++ " out of "
            ++ sprintD d.Status.DesiredNumberScheduled ++ " updated") ∧
    (∀ (s : apiapps.StatefulSet) (observed wanted : Int),
      s.Status.ObservedGeneration = some observed → s.Spec.Replicas = some wanted →
      ∃ st, (makeStatefulSetPodController s).map (·.status) = some st ∧
        (st = StatusReady ∨ st = StatusUpdating ∨
          st = sprintD s.Status.UpdatedReplicas ++ " out of " ++ sprintD wanted
            ++ " updated")) ∧
    StatusReady = "Ready" ∧ StatusUpdating = "Updating" ∧ StatusReady ≠ StatusUpdating ∧
    (∀ u w : Int,
      sprintD u ++ " out of " ++ sprintD w ++ " updated" ≠ StatusReady ∧
      sprintD u ++ " out of " ++ sprintD w ++ " updated" ≠ StatusUpdating) := by
  refine ⟨?_, ?_, ?_, rfl, rfl, by decide, ?_⟩
  · intro d wanted hw
    by_cases hg : d.ObjectMeta.Generation ≤ d.Status.ObservedGeneration
    · by_cases hu : d.Status.UpdatedReplicas = wanted
      · exact ⟨StatusReady, by simp [makeDeploymentPodController, hw, hg, hu], Or.inl rfl⟩
      · exact ⟨_, by simp [makeDeploymentPodController, hw, hg, hu], Or.inr (Or.inr rfl)⟩
    · exact ⟨StatusUpdating, by simp [makeDeploymentPodController, hg], Or.inr (Or.inl rfl)⟩
  · intro d
    by_cases hg : d.ObjectMeta.Generation ≤ d.Status.ObservedGeneration
    · by_cases hu : d.Status.UpdatedNumberScheduled = d.Status.DesiredNumberScheduled
      · exact Or.inl (by simp [makeDaemonSetPodController, hg, hu])
      · exact Or.inr (Or.inr (by simp [makeDaemonSetPodController, hg, hu]))
    · exact Or.inr (Or.inl (by simp [makeDaemonSetPodController, hg]))
  · intro s observed wanted hobs hw
    by_cases hg : s.ObjectMeta.Generation ≤ observed
    · by_cases hu : s.Status.UpdatedReplicas = wanted
      · exact ⟨StatusReady, by simp [makeStatefulSetPodController, hobs, hw, hg, hu],
          Or.inl rfl⟩
      · exact ⟨_, by simp [makeStatefulSetPodController, hobs, hw, hg, hu],
          Or.inr (Or.inr rfl)⟩
    · exact ⟨StatusUpdating, by simp [makeStatefulSetPodController, hobs, hg],
        Or.inr (Or.inl rfl)⟩
  · intro u w
    have hr : StatusReady.length = 5 := by decide
    have hup : StatusUpdating.length = 8 := by decide
    have hlen := progress_length u w
    constructor
    · intro h
      rw [h, hr] at hlen
      omega
    · intro h
      rw [h, hup] at hlen
      omega

/-- C19 on three deployments: updating, ready, and 3 of 5 updated. -/
theorem status_forms_exhaustive_and_exclusive_witness :
    (∃ st, (makeDeploymentPodController (sampleDeployment 7 6 3 (some 5))).map (·.status)
        = some st ∧
      (st = "Ready" ∨ st = "Updating" ∨ st = "3 out of 5 updated")) ∧
    (∃ st, (makeStatefulSetPodController (sampleStatefulSet 7 (some 7) 3 (some 5))).map
        (·.status) = some st ∧
      (st = "Ready" ∨ st = "Updating" ∨ st = "3 out of 5 updated")) ∧
    "3 out of 5 updated" ≠ "Ready" ∧ "3 out of 5 updated" ≠ "Updating" :=
  ⟨status_forms_exhaustive_and_exclusive.1 (sampleDeployment 7 6 3 (some 5)) 5 rfl,
   status_forms_exhaustive_and_exclusive.2.2.1 (sampleStatefulSet 7 (some 7) 3 (some 5)) 7 5
     rfl rfl,
   (status_forms_exhaustive_and_exclusive.2.2.2.2.2.2 3 5).1,
   (status_forms_exhaustive_and_exclusive.2.2.2.2.2.2 3 5).2⟩

/-! ## Containers of a chart release as Kubernetes containers -/

/-- The image string `createK8sContainers` builds for a reference is the repository path
when the tag is empty, and domain, `/`, path, `:` and tag otherwise. -/
theorem createK8sContainers_foldl (cs : List resource.Container) :
    createK8sContainers cs
      = cs.map (fun c =>
          { Name := c.Name
            Image :=
              if c.Image.Tag = "" then c.Image.Name.Image
              else c.Image.Name.Domain ++ "/" ++ c.Image.Name.Image ++ ":" ++ c.Image.Tag }) := by
  unfold createK8sContainers
  split
  · next h =>
    have hnil : cs = [] := List.length_eq_zero.mp h
    subst hnil
    rfl
  · have hf := foldl_append_singleton
      (fun c : resource.Container =>
        ({ Name := c.Name
           Image :=
            if c.Image.Tag ≠ "" then
              (if c.Image.Tag = "" then c.Image.Name.Image
                else c.Image.Name.Domain ++ "/" ++ c.Image.Name.Image) ++ ":" ++ c.Image.Tag
            else
              (if c.Image.Tag = "" then c.Image.Name.Image
                else c.Image.Name.Domain ++ "/" ++ c.Image.Name.Image) } : apiv1.Container))
      cs []
    simp only [List.nil_append] at hf
    refine hf.trans ?_
    apply List.map_congr_left
    intro c _
    by_cases ht : c.Image.Tag = "" <;> simp [ht]

/-- C20. `createK8sContainers` returns a list of the same length with the same names in the
same order; the image string of each is the repository path alone when the tag of the
reference is empty, also when its domain is not, and domain, `/`, repository path, `:` and
tag when the tag is not empty, so it starts with `/` when the domain is empty. -/
theorem createK8sContainers_names_and_images :
    (∀ cs : List resource.Container,
      createK8sContainers cs
        = cs.map (fun c =>
            { Name := c.Name
              Image :=
                if c.Image.Tag = "" then c.Image.Name.Image
                else c.Image.Name.Domain ++ "/" ++ c.Image.Name.Image ++ ":"
                  ++ c.Image.Tag })) ∧
    (∀ cs : List resource.Container, (createK8sContainers cs).length = cs.length) ∧
    (∀ cs : List resource.Container,
      (createK8sContainers cs).map (·.Name) = cs.map (·.Name)) ∧
    createK8sContainers
        [⟨"a", ⟨⟨"docker.io", "nginx"⟩, ""⟩⟩, ⟨"b", ⟨⟨"", "nginx"⟩, "1.21"⟩⟩,
          ⟨"a", ⟨⟨"quay.io", "x/redis"⟩, "5"⟩⟩]
      = [⟨"a", "nginx"⟩, ⟨"b", "/nginx:1.21"⟩, ⟨"a", "quay.io/x/redis:5"⟩] := by
  refine ⟨createK8sContainers_foldl, ?_, ?_, by decide⟩
  · intro cs
    simp [createK8sContainers_foldl]
  · intro cs
    simp [createK8sContainers_foldl, Function.comp_def]

/-! ## What the adapter of chart releases does with an error -/

/-- C16 fails as stated. With the sample parser, `CreateContainers` fails on the release
whose tree is `{"image": ""}` and succeeds with no container on the release whose tree is
`{"replicas": 3}`, which declares no image; `makeFluxHelmReleasePodTemplate` and
`makeFluxHelmReleasePodController` give the same pod template for both. -/
theorem makeFluxHelmReleasePodTemplate_same_for_failed_and_no_image :
    k8sresource.CreateContainers samplePrims
        { Meta := ⟨"", ""⟩, Spec := (sampleHelmRelease [("image", .str "")]).Spec }
      = .error (.other "blank image name") ∧
    k8sresource.CreateContainers samplePrims
        { Meta := ⟨"", ""⟩, Spec := (sampleHelmRelease [("replicas", .other 3)]).Spec }
      = .ok [] ∧
    makeFluxHelmReleasePodTemplate samplePrims (some (sampleHelmRelease [("image", .str "")]))
      = makeFluxHelmReleasePodTemplate samplePrims
          (some (sampleHelmRelease [("replicas", .other 3)])) ∧
    (makeFluxHelmReleasePodController samplePrims
        (sampleHelmRelease [("image", .str "")])).podTemplate
      = (makeFluxHelmReleasePodController samplePrims
          (sampleHelmRelease [("replicas", .other 3)])).podTemplate :=
  ⟨rfl, rfl, rfl, rfl⟩

/-- C16 as amended. `CreateContainers` returns its error to `FluxHelmRelease.Containers`,
which drops it: on a release on which `CreateContainers` fails, `Containers` returns no
containers, and `makeFluxHelmReleasePodTemplate` gives the metadata of the release with an
empty container list, which is what it gives for the release with an empty values tree. -/
theorem CreateContainers_error_dropped :
    (∀ (P : Prims) (fhr : k8sresource.FluxHelmRelease) (e : image.Error),
      k8sresource.CreateContainers P fhr = .error e → fhr.Containers P = []) ∧
    (∀ (P : Prims) (fhr : ifv1.FluxHelmRelease) (e : image.Error),
      k8sresource.CreateContainers P { Meta := ⟨"", ""⟩, Spec := fhr.Spec } = .error e →
      makeFluxHelmReleasePodTemplate P (some fhr)
        = { ObjectMeta := fhr.ObjectMeta, Spec := { Containers := [] } }) ∧
    (∀ (P : Prims) (fhr : ifv1.FluxHelmRelease) (e : image.Error),
      k8sresource.CreateContainers P { Meta := ⟨"", ""⟩, Spec := fhr.Spec } = .error e →
      makeFluxHelmReleasePodTemplate P (some fhr)
        = makeFluxHelmReleasePodTemplate P
            (some { ObjectMeta := fhr.ObjectMeta
                    Spec := { ChartGitPath := fhr.Spec.ChartGitPath, Values := [] } })) := by
  have key : ∀ (P : Prims) (fhr : ifv1.FluxHelmRelease) (e : image.Error),
      k8sresource.CreateContainers P { Meta := ⟨"", ""⟩, Spec := fhr.Spec } = .error e →
      makeFluxHelmReleasePodTemplate P (some fhr)
        = { ObjectMeta := fhr.ObjectMeta, Spec := { Containers := [] } } := by
    intro P fhr e h
    simp [makeFluxHelmReleasePodTemplate, k8sresource.FluxHelmRelease.Containers, h,
      createK8sContainers]
  refine ⟨?_, key, ?_⟩
  · intro P fhr e h
    simp [k8sresource.FluxHelmRelease.Containers, h]
  · intro P fhr e h
    exact (key P fhr e h).trans rfl

/-- C16 as amended, on the release whose tree is `{"image": ""}`, read by the sample
parser. -/
theorem CreateContainers_error_dropped_witness :
    k8sresource.FluxHelmRelease.Containers samplePrims
        (k8sresource.sampleRelease [("image", .str "")]) = [] ∧
    makeFluxHelmReleasePodTemplate samplePrims (some (sampleHelmRelease [("image", .str "")]))
      = { ObjectMeta := ⟨"web", "default", 1⟩, Spec := { Containers := [] } } :=
  ⟨CreateContainers_error_dropped.1 samplePrims
      (k8sresource.sampleRelease [("image", .str "")]) (.other "blank image name") rfl,
   CreateContainers_error_dropped.2.1 samplePrims (sampleHelmRelease [("image", .str "")])
      (.other "blank image name") rfl⟩

end kubernetes

namespace k8sresource

/-! ## Two evaluations of one values tree -/

/-- A map read at a key gives the same value in whatever order its entries are listed. -/
theorem lookup_perm {β : Type} {l l' : List (String × β)} (h : l.Perm l')
    (nd : (l.map Prod.fst).Nodup) (k : String) : l.lookup k = l'.lookup k := by
  induction h with
  | nil => rfl
  | cons x _ ih =>
    obtain ⟨a, b⟩ := x
    simp only [List.map_cons, List.nodup_cons] at nd
    simp only [List.lookup_cons, ih nd.2]
  | swap x y l =>
    obtain ⟨a, b⟩ := x
    obtain ⟨c, d⟩ := y
    simp only [List.map_cons, List.nodup_cons, List.mem_cons, not_or] at nd
    have hca : c ≠ a := nd.1.1
    simp only [List.lookup_cons]
    by_cases h1 : k = a
    · subst h1
      have hkc : (k == c) = false := by simpa using fun h => hca h.symm
      simp [hkc]
    · have hka : (k == a) = false := by simpa using h1
      simp [hka]
  | trans h1 _ ih1 ih2 =>
    rw [ih1 nd, ih2 ((h1.map Prod.fst).nodup_iff.mp nd)]

/-- The loop of `CreateContainers` reads the release only through `Meta`. -/
theorem CreateContainers_loop_congr (P : Prims) (fhr fhr' : FluxHelmRelease)
    (h : fhr'.Meta = fhr.Meta) (l : Values) (acc : List resource.Container) :
    CreateContainers.loop P fhr' l acc = CreateContainers.loop P fhr l acc := by
  induction l generalizing acc with
  | nil => rfl
  | cons p l ih =>
    obtain ⟨param, value⟩ := p
    have hf : fhr'.findImage P param value = fhr.findImage P param value := by
      simp [FluxHelmRelease.findImage, h]
    simp only [CreateContainers.loop, hf, ih]

/-- The loop of `CreateContainers` ends in the empty list when no entry fails, and otherwise
in the error of one of the failing entries. -/
theorem CreateContainers_loop_cases (P : Prims) (fhr : FluxHelmRelease) (l : Values)
    (acc : List resource.Container) :
    (CreateContainers.loop P fhr l acc = .ok [] ∧
      ∀ p ∈ l, ∀ e, fhr.findImage P p.1 p.2 ≠ .error e) ∨
    (∃ p ∈ l, ∃ e, fhr.findImage P p.1 p.2 = .error e ∧
      CreateContainers.loop P fhr l acc = .error e) := by
  induction l generalizing acc with
  | nil => exact Or.inl ⟨rfl, by simp⟩
  | cons p l ih =>
    obtain ⟨param, value⟩ := p
    cases hf : fhr.findImage P param value with
    | error e =>
      exact Or.inr ⟨(param, value), List.mem_cons_self _ _, e, hf,
        by simp [CreateContainers.loop, hf]⟩
    | ok r =>
      obtain ⟨cName, imageRef⟩ := r
      have hstep : ∃ acc', CreateContainers.loop P fhr ((param, value) :: l) acc
          = CreateContainers.loop P fhr l acc' := by
        by_cases hc : cName = ""
        · exact ⟨acc, by simp [CreateContainers.loop, hf, hc]⟩
        · exact ⟨acc ++ [{ Name := cName, Image := imageRef }],
            by simp [CreateContainers.loop, hf, hc]⟩
      obtain ⟨acc', hacc⟩ := hstep
      rcases ih acc' with ⟨hok, hall⟩ | ⟨q, hq, e, hqe, herr⟩
      · refine Or.inl ⟨hacc.trans hok, ?_⟩
        intro q hq e
        rcases List.mem_cons.mp hq with hqp | hql
        · subst hqp
          rw [hf]
          intro hne
          cases hne
        · exact hall q hql e
      · exact Or.inr ⟨q, List.mem_cons_of_mem _ hq, e, hqe, hacc.trans herr⟩

/-- Two evaluations of `CreateContainers` on one values tree, its entries visited in two
orders, give the same result, or both fail in the loop over the sub-charts, each with the
error of a failing sub-chart. -/
theorem CreateContainers_perm_cases (P : Prims) (fhr : FluxHelmRelease) (values : Values)
    (hperm : values.Perm fhr.Spec.Values) (nd : (fhr.Spec.Values.map Prod.fst).Nodup) :
    CreateContainers P (fhr.withValues values) = CreateContainers P fhr ∨
    (fhr.Spec.Values.lookup "image" = none ∧
      ∃ p ∈ fhr.Spec.Values, ∃ q ∈ fhr.Spec.Values, ∃ e e',
        fhr.findImage P p.1 p.2 = .error e ∧ fhr.findImage P q.1 q.2 = .error e' ∧
        CreateContainers P fhr = .error e ∧
        CreateContainers P (fhr.withValues values) = .error e') := by
  have hlen : values.length = fhr.Spec.Values.length := hperm.length_eq
  have hlk : ∀ k, values.lookup k = fhr.Spec.Values.lookup k :=
    fun k => (lookup_perm hperm.symm nd k).symm
  by_cases h0 : fhr.Spec.Values.length = 0
  · left
    simp [CreateContainers, FluxHelmRelease.withValues, hlen, h0]
  · cases hi : fhr.Spec.Values.lookup "image" with
    | some v =>
      left
      simp [CreateContainers, FluxHelmRelease.withValues, hlen, h0, hlk, hi,
        processImageInfo_congr P fhr.Spec.Values values v (hlk "imageTag") (hlk "tag")]
    | none =>
      have hA : CreateContainers P fhr = CreateContainers.loop P fhr fhr.Spec.Values [] := by
        simp [CreateContainers, h0, hi]
      have hB : CreateContainers P (fhr.withValues values)
          = CreateContainers.loop P fhr values [] := by
        rw [← CreateContainers_loop_congr P fhr (fhr.withValues values) rfl values []]
        simp [CreateContainers, FluxHelmRelease.withValues, hlen, h0, hlk, hi]
      rcases CreateContainers_loop_cases P fhr fhr.Spec.Values [] with
        ⟨hokA, hallA⟩ | ⟨p, hp, e, hpe, herrA⟩
      · rcases CreateContainers_loop_cases P fhr values [] with
          ⟨hokB, _⟩ | ⟨q, hq, e', hqe, _⟩
        · left
          rw [hA, hB, hokA, hokB]
        · exact absurd hqe (hallA q (hperm.mem_iff.mp hq) e')
      · rcases CreateContainers_loop_cases P fhr values [] with
          ⟨_, hallB⟩ | ⟨q, hq, e', hqe, herrB⟩
        · exact absurd hpe (hallB p (hperm.mem_iff.mpr hp) e)
        · right
          exact ⟨rfl, p, hp, q, hperm.mem_iff.mp hq, e, e', hpe, hqe, hA.trans herrA,
            hB.trans herrB⟩

/-- C15 fails as stated. The trees `twoFailingWebFirst` and `twoFailingDbFirst` hold the same
two entries under distinct keys, in the two orders a `range` may visit them; with the sample
parser `CreateContainers` fails with the parser's error for the empty image on the first
and with `ErrMalformedImageID` on the second. -/
theorem CreateContainers_error_depends_on_visit_order :
    twoFailingDbFirst.Perm twoFailingWebFirst ∧
    (twoFailingWebFirst.map Prod.fst).Nodup ∧
    CreateContainers kubernetes.samplePrims (sampleRelease twoFailingWebFirst)
      = .error (.other "blank image name") ∧
    CreateContainers kubernetes.samplePrims
        ((sampleRelease twoFailingWebFirst).withValues twoFailingDbFirst)
      = .error .ErrMalformedImageID ∧
    CreateContainers kubernetes.samplePrims
        ((sampleRelease twoFailingWebFirst).withValues twoFailingDbFirst)
      ≠ CreateContainers kubernetes.samplePrims (sampleRelease twoFailingWebFirst) := by
  have h1 : CreateContainers kubernetes.samplePrims (sampleRelease twoFailingWebFirst)
      = .error (.other "blank image name") := rfl
  have h2 : CreateContainers kubernetes.samplePrims
      ((sampleRelease twoFailingWebFirst).withValues twoFailingDbFirst)
      = .error .ErrMalformedImageID := rfl
  refine ⟨List.Perm.swap _ _ _, by decide, h1, h2, ?_⟩
  rw [h1, h2]
  intro h
  cases h

/-- The loop of `CreateContainers` returns the error of the first entry that fails, in the
order of the visit. -/
theorem CreateContainers_loop_first_error (P : Prims) (fhr : FluxHelmRelease)
    (pre post : Values) (k : String) (v : Value) (e : image.Error)
    (acc : List resource.Container)
    (hpre : ∀ p ∈ pre, ∀ e', fhr.findImage P p.1 p.2 ≠ .error e')
    (hkv : fhr.findImage P k v = .error e) :
    CreateContainers.loop P fhr (pre ++ (k, v) :: post) acc = .error e := by
  induction pre generalizing acc with
  | nil => simp [CreateContainers.loop, hkv]
  | cons p pre ih =>
    obtain ⟨param, value⟩ := p
    have hrest : ∀ q ∈ pre, ∀ e', fhr.findImage P q.1 q.2 ≠ .error e' :=
      fun q hq => hpre q (List.mem_cons_of_mem _ hq)
    cases hf : fhr.findImage P param value with
    | error e' => exact absurd hf (hpre (param, value) (List.mem_cons_self _ _) e')
    | ok r =>
      obtain ⟨cName, imageRef⟩ := r
      by_cases hc : cName = ""
      · simp [CreateContainers.loop, hf, hc, ih _ hrest]
      · simp [CreateContainers.loop, hf, hc, ih _ hrest]

/-- On a tree with no top-level `image`, `CreateContainers` returns the error of the first
sub-chart that fails to decode, in the order of the visit. -/
theorem CreateContainers_first_error (P : Prims) (fhr : FluxHelmRelease)
    (pre post : Values) (k : String) (v : Value) (e : image.Error)
    (hsplit : fhr.Spec.Values = pre ++ (k, v) :: post)
    (himg : fhr.Spec.Values.lookup "image" = none)
    (hpre : ∀ p ∈ pre, ∀ e', fhr.findImage P p.1 p.2 ≠ .error e')
    (hkv : fhr.findImage P k v = .error e) :
    CreateContainers P fhr = .error e := by
  have hlen : fhr.Spec.Values.length ≠ 0 := by
    rw [hsplit]
    simp
  have hloop := CreateContainers_loop_first_error P fhr pre post k v e [] hpre hkv
  rw [← hsplit] at hloop
  simp [CreateContainers, hlen, himg, hloop]

/-- C15 as amended. Two evaluations of `CreateContainers` on one release, the entries of its
values tree (under distinct keys) visited in two orders, give the same result when the tree
has a top-level `image`; when one returns a container list the other returns the same list;
when one fails the other fails; on a tree with no top-level `image` each evaluation returns
the error of the failing sub-chart it visits first; and the two fail with the same error
when all the sub-charts that fail to decode fail with the same error, as when only one
fails. -/
theorem CreateContainers_deterministic_up_to_error (P : Prims) (fhr : FluxHelmRelease)
    (values : Values) (hperm : values.Perm fhr.Spec.Values)
    (nd : (fhr.Spec.Values.map Prod.fst).Nodup) :
    (fhr.Spec.Values.lookup "image" ≠ none →
      CreateContainers P (fhr.withValues values) = CreateContainers P fhr) ∧
    (∀ l, CreateContainers P fhr = .ok l → CreateContainers P (fhr.withValues values) = .ok l) ∧
    (∀ e, CreateContainers P fhr = .error e →
      ∃ e', CreateContainers P (fhr.withValues values) = .error e') ∧
    (∀ (pre post : Values) (k : String) (v : Value) (e : image.Error),
      fhr.Spec.Values = pre ++ (k, v) :: post → fhr.Spec.Values.lookup "image" = none →
      (∀ p ∈ pre, ∀ e', fhr.findImage P p.1 p.2 ≠ .error e') →
      fhr.findImage P k v = .error e → CreateContainers P fhr = .error e) ∧
    (∀ (pre post : Values) (k : String) (v : Value) (e : image.Error),
      values = pre ++ (k, v) :: post → fhr.Spec.Values.lookup "image" = none →
      (∀ p ∈ pre, ∀ e', fhr.findImage P p.1 p.2 ≠ .error e') →
      fhr.findImage P k v = .error e →
      CreateContainers P (fhr.withValues values) = .error e) ∧
    ((∀ p ∈ fhr.Spec.Values, ∀ q ∈ fhr.Spec.Values, ∀ e e',
        fhr.findImage P p.1 p.2 = .error e → fhr.findImage P q.1 q.2 = .error e' → e = e') →
      CreateContainers P (fhr.withValues values) = CreateContainers P fhr) := by
  have hfirst : ∀ (pre post : Values) (k : String) (v : Value) (e : image.Error),
      fhr.Spec.Values = pre ++ (k, v) :: post → fhr.Spec.Values.lookup "image" = none →
      (∀ p ∈ pre, ∀ e', fhr.findImage P p.1 p.2 ≠ .error e') →
      fhr.findImage P k v = .error e → CreateContainers P fhr = .error e :=
    fun pre post k v e hsplit himg hpre hkv =>
      CreateContainers_first_error P fhr pre post k v e hsplit himg hpre hkv
  have hfirst' : ∀ (pre post : Values) (k : String) (v : Value) (e : image.Error),
      values = pre ++ (k, v) :: post → fhr.Spec.Values.lookup "image" = none →
      (∀ p ∈ pre, ∀ e', fhr.findImage P p.1 p.2 ≠ .error e') →
      fhr.findImage P k v = .error e →
      CreateContainers P (fhr.withValues values) = .error e := by
    intro pre post k v e hsplit himg hpre hkv
    have himg' : (fhr.withValues values).Spec.Values.lookup "image" = none := by
      have h := lookup_perm hperm.symm nd "image"
      rw [himg] at h
      exact h.symm
    exact CreateContainers_first_error P (fhr.withValues values) pre post k v e hsplit himg'
      hpre hkv
  rcases CreateContainers_perm_cases P fhr values hperm nd with
    heq | ⟨hnone, p, hp, q, hq, e, e', hpe, hqe, hA, hB⟩
  · refine ⟨fun _ => heq, ?_, ?_, hfirst, hfirst', fun _ => heq⟩
    · intro l hl
      rw [heq, hl]
    · intro e he
      exact ⟨e, by rw [heq, he]⟩
  · refine ⟨fun h => absurd hnone h, ?_, ?_, hfirst, hfirst', ?_⟩
    · intro l hl
      rw [hA] at hl
      cases hl
    · intro _ _
      exact ⟨e', hB⟩
    · intro hsame
      rw [hA, hB, hsame p hp q hq e e' hpe hqe]

/-- C15 as amended, read by the sample parser: the tree `twoSubcharts`, a tree with a
top-level `image`, the tree `{"web": {"image": ""}, "replicas": 3}` in which one sub-chart
fails, and the tree `{"replicas": 3, "web": {"image": ""}, "db": {"image": {}}}` in which
two fail, visited with `web` before `db` and with `db` first. -/
theorem CreateContainers_deterministic_up_to_error_witness :
    CreateContainers kubernetes.samplePrims
        ((sampleRelease twoSubcharts).withValues
          [("nameOverride", .str "web"), ("replicas", .other 3),
           ("db", .anyMap [("name", .str "db"), ("image", .str "mariadb"),
             ("tag", .str "10.1")]),
           ("controller", controllerValue)])
      = .ok [] ∧
    CreateContainers kubernetes.samplePrims
        ((sampleRelease [("image", .str "nginx"), ("tag", .str "1.21")]).withValues
          [("tag", .str "1.21"), ("image", .str "nginx")])
      = .ok [⟨"charts/web", ⟨⟨"", "nginx:1.21"⟩, ""⟩⟩] ∧
    CreateContainers kubernetes.samplePrims
        ((sampleRelease [("web", .anyMap [("image", .str "")]), ("replicas", .other 3)]).withValues
          [("replicas", .other 3), ("web", .anyMap [("image", .str "")])])
      = .error (.other "blank image name") ∧
    CreateContainers kubernetes.samplePrims
        (sampleRelease (("replicas", .other 3) :: twoFailingWebFirst))
      = .error (.other "blank image name") ∧
    CreateContainers kubernetes.samplePrims
        ((sampleRelease (("replicas", .other 3) :: twoFailingWebFirst)).withValues
          [("db", .anyMap [("image", .strMap [])]), ("replicas", .other 3),
           ("web", .anyMap [("image", .str "")])])
      = .error .ErrMalformedImageID :=
  ⟨(CreateContainers_deterministic_up_to_error kubernetes.samplePrims
      (sampleRelease twoSubcharts)
      [("nameOverride", .str "web"), ("replicas", .other 3),
       ("db", .anyMap [("name", .str "db"), ("image", .str "mariadb"), ("tag", .str "10.1")]),
       ("controller", controllerValue)]
      (List.reverse_perm twoSubcharts) (by decide)).2.1 [] rfl,
   ((CreateContainers_deterministic_up_to_error kubernetes.samplePrims
      (sampleRelease [("image", .str "nginx"), ("tag", .str "1.21")])
      [("tag", .str "1.21"), ("image", .str "nginx")]
      (List.Perm.swap _ _ _) (by decide)).1
        (by simp [sampleRelease, List.lookup])).trans rfl,
   ((CreateContainers_deterministic_up_to_error kubernetes.samplePrims
      (sampleRelease [("web", .anyMap [("image", .str "")]), ("replicas", .other 3)])
      [("replicas", .other 3), ("web", .anyMap [("image", .str "")])]
      (List.Perm.swap _ _ _) (by decide)).2.2.2.2.2
        (by
          intro p hp q hq e e' hpe hqe
          simp only [sampleRelease, List.mem_cons, List.mem_singleton, List.not_mem_nil,
            or_false] at hp hq
          rcases hp with rfl | rfl
          · rcases hq with rfl | rfl
            · exact Except.error.inj (hpe.symm.trans hqe)
            · exact absurd hqe (by simp [FluxHelmRelease.findImage])
          · exact absurd hpe (by simp [FluxHelmRelease.findImage]))).trans rfl,
   (CreateContainers_deterministic_up_to_error kubernetes.samplePrims
      (sampleRelease (("replicas", .other 3) :: twoFailingWebFirst))
      [("db", .anyMap [("image", .strMap [])]), ("replicas", .other 3),
       ("web", .anyMap [("image", .str "")])]
      (List.perm_append_comm :
        ([("db", Value.anyMap [("image", Value.strMap [])])]
          ++ [("replicas", Value.other 3), ("web", Value.anyMap [("image", Value.str "")])]).Perm
          _)
      (by decide)).2.2.2.1
        [("replicas", .other 3)] [("db", .anyMap [("image", .strMap [])])] "web"
        (.anyMap [("image", .str "")]) (.other "blank image name") rfl rfl
        (by
          intro p hp e' hpe
          simp only [List.mem_singleton] at hp
          subst hp
          simp [FluxHelmRelease.findImage] at hpe)
        rfl,
   (CreateContainers_deterministic_up_to_error kubernetes.samplePrims
      (sampleRelease (("replicas", .other 3) :: twoFailingWebFirst))
      [("db", .anyMap [("image", .strMap [])]), ("replicas", .other 3),
       ("web", .anyMap [("image", .str "")])]
      (List.perm_append_comm :
        ([("db", Value.anyMap [("image", Value.strMap [])])]
          ++ [("replicas", Value.other 3), ("web", Value.anyMap [("image", Value.str "")])]).Perm
          _)
      (by decide)).2.2.2.2.1
        [] [("replicas", .other 3), ("web", .anyMap [("image", .str "")])] "db"
        (.anyMap [("image", .strMap [])]) .ErrMalformedImageID rfl rfl
        (by simp) rfl⟩

end k8sresource

end Flux
